import Mathlib

/-!
Verification of the Ferrumpy Rust value-reflection engine (path resolver,
type-name normalizer, layout decoder / display formatter, snapshot
serializer) against its natural-language specification.

The Python sources under `src/python/ferrumpy/` are shallowly embedded
here.  The debugger's opaque value abstraction (LLDB `SBValue`) is
modelled by the inductive type `RVal`: a value carries its type, its
(optional) name, its load address, its scalar/summary strings, its
children, and the address its pointer dereferences to.  Dereferencing
and address-based materialisation go through an explicit `Process`
record (the live debuggee), so reference cycles between heap nodes are
representable even though `RVal` itself is a tree.  Machine integers
are modelled as `Nat`/`Int`; Python functions that can diverge are
given explicit fuel; Python exceptions are modelled with `Except`.
-/

namespace Fpy

/-- ASCII whitespace as Python's `str.strip` treats it (we restrict to
the ASCII range; all inputs of interest are ASCII). -/
def isPySpace (c : Char) : Bool :=
  c = ' ' || c = '\t' || c = '\n' || c = '\r' || c = '\x0b' || c = '\x0c'

/-- First character of a Python-regex identifier `[a-zA-Z_]`. -/
def isIdentStart (c : Char) : Bool :=
  ('a' ≤ c && c ≤ 'z') || ('A' ≤ c && c ≤ 'Z') || c = '_'

/-- Identifier continuation character `[a-zA-Z0-9_]`. -/
def isIdentChar (c : Char) : Bool :=
  isIdentStart c || ('0' ≤ c && c ≤ '9')

/-- ASCII digit. -/
def isDigitChar (c : Char) : Bool :=
  '0' ≤ c && c ≤ '9'

/-- Python `\w` (restricted to ASCII): letter, digit or underscore. -/
def isWordChar (c : Char) : Bool :=
  isIdentChar c

/-- Python `str.strip()` on a character list. -/
def pyStripChars (l : List Char) : List Char :=
  ((l.dropWhile isPySpace).reverse.dropWhile isPySpace).reverse

/-- Python `str.strip()`. -/
def pyStrip (s : String) : String :=
  String.mk (pyStripChars s.data)

/-- Python's `needle in hay` substring test. -/
def pyIn (needle hay : String) : Bool :=
  hay.data.tails.any (fun t => needle.data.isPrefixOf t)

/-- Strip all occurrences of one character from both ends
(Python `str.strip("'")` / `str.strip('"')`). -/
def pyStripChar (c : Char) (s : String) : String :=
  String.mk (((s.data.dropWhile (· = c)).reverse.dropWhile (· = c)).reverse)

/-- Python `str.lstrip('&')`. -/
def pyLstripAmp (s : String) : String :=
  String.mk (s.data.dropWhile (· = '&'))

/-- Python `s.startswith(pre)` (list-based, so the kernel can
evaluate it). -/
def pyStartsWith (s pre : String) : Bool :=
  pre.data.isPrefixOf s.data

/-- Python `s.endswith(suf)`. -/
def pyEndsWith (s suf : String) : Bool :=
  suf.data.isSuffixOf s.data

/-- Python `s.split('::')` on a character list: greedy leftmost split
at each `::` occurrence. -/
def splitOnColons : List Char → List (List Char)
  | ':' :: ':' :: rest => [] :: splitOnColons rest
  | c :: rest =>
    match splitOnColons rest with
    | h :: t => (c :: h) :: t
    | [] => [[c]]
  | [] => [[]]

/-- Python `s.split('::')`. -/
def pySplitColons (s : String) : List String :=
  (splitOnColons s.data).map String.mk

/-- `sep.join(parts)` / `String.intercalate`, write out structurally so
the kernel can evaluate it. -/
def strIntercalate (sep : String) : List String → String
  | [] => ""
  | [x] => x
  | x :: xs => x ++ sep ++ strIntercalate sep xs

/-- ASCII lower-casing (Python `str.lower()` on ASCII input). -/
def asciiLower (s : String) : String :=
  String.mk (s.data.map (fun c =>
    if 'A' ≤ c && c ≤ 'Z' then Char.ofNat (c.toNat + 32) else c))

/-- Lower-case hexadecimal rendering of a natural number, as Python's
format specifier `x` produces it. -/
def hexStr (n : Nat) : String :=
  String.mk (Nat.toDigits 16 n)

/-- Decimal digits to a natural number (Python `int` on a digit string). -/
def digitsToNat (ds : List Char) : Nat :=
  ds.foldl (fun a c => a * 10 + (c.toNat - '0'.toNat)) 0

/-- Python `range(a, b)` over integers (empty when `b ≤ a`). -/
def pyRange (a b : Int) : List Int :=
  (List.range (b - a).toNat).map (fun (i : Nat) => a + (i : Int))

/-- Repeat a string `n` times (Python `"  " * depth`). -/
def strRepeat (s : String) : Nat → String
  | 0 => ""
  | n + 1 => s ++ strRepeat s n

/-- LLDB's invalid-address constant (`LLDB_INVALID_ADDRESS`, an all-ones
64-bit word). -/
def LLDB_INVALID_ADDRESS : Nat := 2 ^ 64 - 1

/-- Where a value physically resides.  This is ghost information: LLDB
only exposes the numeric load address, and none of the embedded engine
functions consult this field.  It lets theorems speak about
stack-resident versus heap-resident values. -/
inductive MemRegion where
  | stack
  | heap
  | staticData
deriving DecidableEq, Repr

/-- A debug type descriptor (LLDB `SBType`): validity flag, display
name, byte size, and generic (template) arguments. -/
inductive RType where
  | mk (valid : Bool) (name : String) (byteSize : Nat) (args : List RType)

/-- The invalid type, as LLDB returns for a failed type lookup. -/
def RType.invalid : RType := .mk false "" 0 []

def RType.valid : RType → Bool
  | .mk v _ _ _ => v

def RType.name : RType → String
  | .mk _ n _ _ => n

def RType.byteSize : RType → Nat
  | .mk _ _ s _ => s

def RType.args : RType → List RType
  | .mk _ _ _ a => a

/-- An opaque debug value (LLDB `SBValue`): validity, type, optional
name, load address, ghost memory region, scalar value string, summary
string, unsigned scalar reading, the address its pointer dereferences
to (when it is dereferenceable), plain children, and synthetic
children (LLDB's provider-generated children). -/
inductive RVal where
  | mk (valid : Bool) (type : RType) (name : Option String) (addr : Nat)
       (region : MemRegion) (value : Option String) (summary : Option String)
       (unsigned : Option Nat) (derefAddr : Option Nat)
       (children : List RVal) (synthChildren : List RVal)

/-- The invalid value, as LLDB returns for failed lookups. -/
def RVal.invalid : RVal :=
  .mk false RType.invalid none 0 .heap none none none none [] []

def RVal.valid : RVal → Bool
  | .mk v _ _ _ _ _ _ _ _ _ _ => v

def RVal.type : RVal → RType
  | .mk _ t _ _ _ _ _ _ _ _ _ => t

def RVal.name : RVal → Option String
  | .mk _ _ n _ _ _ _ _ _ _ _ => n

def RVal.addr : RVal → Nat
  | .mk _ _ _ a _ _ _ _ _ _ _ => a

def RVal.region : RVal → MemRegion
  | .mk _ _ _ _ r _ _ _ _ _ _ => r

def RVal.value : RVal → Option String
  | .mk _ _ _ _ _ v _ _ _ _ _ => v

def RVal.summary : RVal → Option String
  | .mk _ _ _ _ _ _ s _ _ _ _ => s

def RVal.unsigned : RVal → Option Nat
  | .mk _ _ _ _ _ _ _ u _ _ _ => u

def RVal.derefAddr : RVal → Option Nat
  | .mk _ _ _ _ _ _ _ _ d _ _ => d

def RVal.children : RVal → List RVal
  | .mk _ _ _ _ _ _ _ _ _ c _ => c

def RVal.synthChildren : RVal → List RVal
  | .mk _ _ _ _ _ _ _ _ _ _ s => s

/-- The live debuggee process: the capabilities the engine consumes
beyond a value's own fields.  `heapAt` resolves an address reached by
`Dereference`; `valueAt` is `SBValue.CreateValueFromAddress`;
`readMemory` is `SBProcess.ReadMemory` (bytes, or `none` on a failed
read); the two decoders model Python's `bytes.decode('utf-8')` in
strict and `errors='replace'` modes. -/
structure Process where
  heapAt : Nat → Option RVal
  valueAt : Int → RType → RVal
  readMemory : Nat → Nat → Option (List Nat)
  utf8Decode : List Nat → Option String
  utf8Replace : List Nat → String
  strRepr : RVal → String

/-- `SBValue.GetType().GetName()`. -/
def typeName (v : RVal) : String := v.type.name

/-- `SBValue.GetChildMemberWithName`. -/
def getChildMemberWithName (v : RVal) (n : String) : RVal :=
  if v.valid then
    (v.children.find? (fun c => c.name = some n)).getD RVal.invalid
  else RVal.invalid

/-- `SBValue.GetChildAtIndex(i)`. -/
def getChildAtIndex (v : RVal) (i : Nat) : RVal :=
  if v.valid then v.children.getD i RVal.invalid else RVal.invalid

/-- `SBValue.GetChildAtIndex(i, eNoDynamicValues, True)`: may produce a
synthetic child. -/
def getSyntheticChildAtIndex (v : RVal) (i : Nat) : RVal :=
  if v.valid then v.synthChildren.getD i RVal.invalid else RVal.invalid

/-- `SBValue.GetNumChildren`. -/
def getNumChildren (v : RVal) : Nat :=
  if v.valid then v.children.length else 0

/-- `SBValue.GetValueAsUnsigned(fail_value)`. -/
def getValueAsUnsigned (v : RVal) (failValue : Nat) : Nat :=
  if v.valid then v.unsigned.getD failValue else failValue

/-- `SBValue.GetSummary` (`none` models Python `None`). -/
def getSummary (v : RVal) : Option String :=
  if v.valid then v.summary else none

/-- `SBValue.GetValue`. -/
def getValue (v : RVal) : Option String :=
  if v.valid then v.value else none

/-- `SBValue.GetLoadAddress`. -/
def getLoadAddress (v : RVal) : Nat :=
  if v.valid then v.addr else LLDB_INVALID_ADDRESS

/-- `SBValue.Dereference`: follows the value's pointee address into the
process. -/
def dereference (p : Process) (v : RVal) : RVal :=
  if v.valid then
    match v.derefAddr with
    | some a => (p.heapAt a).getD RVal.invalid
    | none => RVal.invalid
  else RVal.invalid

/-- `SBType.GetTemplateArgumentType`. -/
def getTemplateArgumentType (t : RType) (i : Nat) : RType :=
  t.args.getD i RType.invalid

/-- `SBValue.CreateValueFromAddress` (the cosmetic name argument is
dropped: the constructed value is determined by address and type). -/
def createValueFromAddress (p : Process) (addr : Int) (t : RType) : RVal :=
  p.valueAt addr t

/-- A stack frame: `SBFrame.FindVariable`. -/
structure Frame where
  findVariable : String → RVal

end Fpy

namespace Fpy.PathResolver

open Fpy

/-- A segment of a textual path expression (`IdentSegment`,
`IndexSegment`, `DerefSegment` in `path_resolver.py`). -/
inductive PathSegment where
  | ident (name : String)
  | index (idx : Nat)
  | deref
deriving DecidableEq, Repr

/-- The regex `^([a-zA-Z_][a-zA-Z0-9_]*)`: the matched identifier, or
`none` when the text does not start with one.  The caller consumes
`match.end()` characters, i.e. the match's length. -/
def matchIdent (cs : List Char) : Option (List Char) :=
  match cs with
  | [] => none
  | c :: rest =>
    if isIdentStart c then some (c :: rest.takeWhile isIdentChar) else none

/-- The `while remaining:` loop of `tokenize_path`, with the segment
list built so far as accumulator.  Slices `remaining[match.end():]`
become `List.drop`.  Every iteration consumes at least one character,
so the structural `fuel` (one more than the remaining length at the
call site) never runs out; the exhausted case is unreachable from
`tokenize_path`. -/
def tokenizeLoop : Nat → List Char → List PathSegment →
    Except String (List PathSegment)
  | 0, _, _ => .error "<fuel exhausted>"
  | fuel + 1, remaining, segments =>
    match remaining with
    | [] => .ok segments
    | c :: rest =>
      if c = '.' then
        if rest.head? = some '*' then
          tokenizeLoop fuel (rest.drop 1) (segments ++ [.deref])
        else
          let ds := rest.takeWhile isDigitChar
          if ds.isEmpty then
            match matchIdent rest with
            | some nm =>
              tokenizeLoop fuel (rest.drop nm.length)
                (segments ++ [.ident (String.mk nm)])
            | none => .error ("Invalid field access at: ." ++ String.mk rest)
          else
            tokenizeLoop fuel (rest.drop ds.length)
              (segments ++ [.ident ("__" ++ String.mk ds)])
      else if c = '[' then
        let ds := rest.takeWhile isDigitChar
        if ds.isEmpty then
          .error ("Invalid index access at: " ++ String.mk (c :: rest))
        else if (rest.drop ds.length).head? = some ']' then
          tokenizeLoop fuel (rest.drop (ds.length + 1))
            (segments ++ [.index (digitsToNat ds)])
        else
          .error ("Invalid index access at: " ++ String.mk (c :: rest))
      else .error ("Unexpected character at: " ++ String.mk (c :: rest))

/-- `tokenize_path`: parse a path string into segments
(`path_resolver.py` lines 55-115). -/
def tokenize_path (path : String) : Except String (List PathSegment) :=
  let remaining := pyStrip path
  match matchIdent remaining.data with
  | none =>
    .error ("Invalid path: expected identifier at start of \x27" ++ path ++ "\x27")
  | some nm =>
    tokenizeLoop (remaining.length + 1) (remaining.data.drop nm.length)
      [PathSegment.ident (String.mk nm)]

/-- `_is_smart_pointer_type`: each regex is anchored at the start only,
so `re.match` is a prefix test. -/
def is_smart_pointer_type (type_name : String) : Bool :=
  pyStartsWith type_name "alloc::boxed::Box<" ||
  pyStartsWith type_name "alloc::sync::Arc<" ||
  pyStartsWith type_name "alloc::rc::Rc<" ||
  pyStartsWith type_name "core::cell::Ref<" ||
  pyStartsWith type_name "core::cell::RefMut<"

end Fpy.PathResolver

namespace Fpy

/-- `_navigate_path`: walk a chain of named fields; `none` as soon as a
value or field is missing.  The same function appears verbatim in
`providers/__init__.py` and `path_resolver.py`. -/
def navigate_path (value : RVal) : List String → Option RVal
  | [] => some value
  | fieldName :: rest =>
    if value.valid then
      let child := getChildMemberWithName value fieldName
      if child.valid then navigate_path child rest else none
    else none

/-- The ordered pointer-resolution patterns of `_find_pointer_in_buf`
(newest Rust layout first). -/
def POINTER_PATTERNS : List (List String) :=
  [["inner", "ptr", "pointer", "pointer"],
   ["ptr", "pointer", "pointer"],
   ["ptr", "pointer"],
   ["pointer"]]

/-- The `for pattern in POINTER_PATTERNS` loop: first fully-resolving
pattern wins. -/
def findPtrGo (buf : RVal) : List (List String) → Option RVal
  | [] => none
  | pat :: rest =>
    match navigate_path buf pat with
    | some r => if r.valid then some r else findPtrGo buf rest
    | none => findPtrGo buf rest

/-- `_find_pointer_in_buf`: locate the data pointer behind the
`RawVec`/`Unique`/`NonNull` wrapper layers. -/
def find_pointer_in_buf (buf : RVal) : Option RVal :=
  findPtrGo buf POINTER_PATTERNS

end Fpy

namespace Fpy.PathResolver

open Fpy

/-- `_resolve_vec_index`: resolve `Vec<T>[index]` through the length
field and the data pointer (`path_resolver.py` lines 239-281).  The
source's `index < 0` disjunct cannot fire here because indices parse
from digit strings and are naturals. -/
def resolve_vec_index (p : Process) (value : RVal) (index : Nat) :
    Except String RVal :=
  let len_child := getChildMemberWithName value "len"
  if ¬ len_child.valid then .error "Cannot access Vec length"
  else
    let length := getValueAsUnsigned len_child 0
    if index ≥ length then
      .error ("Index [" ++ toString index ++ "] out of bounds (len=" ++
        toString length ++ ")")
    else
      let vec_type := value.type
      let elem_type := getTemplateArgumentType vec_type 0
      if ¬ elem_type.valid then .error "Cannot determine Vec element type"
      else
        let elem_size := elem_type.byteSize
        let buf := getChildMemberWithName value "buf"
        if ¬ buf.valid then .error "Cannot access Vec buffer"
        else
          match find_pointer_in_buf buf with
          | none => .error "Cannot access Vec data pointer"
          | some ptr =>
            if ¬ ptr.valid then .error "Cannot access Vec data pointer"
            else
              let ptr_addr := getValueAsUnsigned ptr 0
              if ptr_addr = 0 then .error "Vec data pointer is null"
              else
                let addr : Int := (ptr_addr : Int) + (index : Int) * (elem_size : Int)
                let elem := createValueFromAddress p addr elem_type
                if ¬ elem.valid then
                  .error ("Cannot access element at index [" ++ toString index ++ "]")
                else .ok elem

/-- `_resolve_array_index`: direct positional access into `[T; N]`. -/
def resolve_array_index (value : RVal) (index : Nat) : Except String RVal :=
  let num_children := getNumChildren value
  if index ≥ num_children then
    .error ("Index [" ++ toString index ++ "] out of bounds (len=" ++
      toString num_children ++ ")")
  else
    let child := getChildAtIndex value index
    if ¬ child.valid then
      .error ("Cannot access element at index [" ++ toString index ++ "]")
    else .ok child

/-- Python truthiness of `child.GetName()` combined with the
`startswith('buf')` exclusion used by the index fallbacks. -/
def nameOkNotBuf (child : RVal) : Bool :=
  match child.name with
  | some n => ¬ n.data.isEmpty && ¬ pyStartsWith n "buf"
  | none => false

/-- `_resolve_segment`: apply one path segment to a value
(`path_resolver.py` lines 157-224). -/
def resolve_segment (p : Process) (value : RVal) (segment : PathSegment) :
    Except String RVal :=
  match segment with
  | .ident nm =>
    let child := getChildMemberWithName value nm
    if child.valid then .ok child
    else
      let type_name := typeName value
      let fieldErr :=
        Except.error (α := RVal) ("Field \x27" ++ nm ++ "\x27 not found in type \x27" ++
          typeName value ++ "\x27")
      if is_smart_pointer_type type_name then
        let derefd := dereference p value
        if derefd.valid then
          let child2 := getChildMemberWithName derefd nm
          if child2.valid then .ok child2 else fieldErr
        else fieldErr
      else fieldErr
  | .index idx =>
    let type_name := typeName value
    if pyIn "alloc::vec::Vec<" type_name then resolve_vec_index p value idx
    else if pyStartsWith type_name "[" && pyIn ";" type_name then
      resolve_array_index value idx
    else
      let child := getSyntheticChildAtIndex value idx
      if child.valid && nameOkNotBuf child then .ok child
      else
        let child2 := getChildAtIndex value idx
        if child2.valid && nameOkNotBuf child2 then .ok child2
        else
          .error ("Index [" ++ toString idx ++ "] out of bounds or not accessible")
  | .deref =>
    let derefd := dereference p value
    if derefd.valid then .ok derefd
    else
      let type_name := typeName value
      if is_smart_pointer_type type_name then
        let inner := getChildAtIndex value 0
        if inner.valid then .ok inner
        else .error ("Cannot dereference type \x27" ++ typeName value ++ "\x27")
      else .error ("Cannot dereference type \x27" ++ typeName value ++ "\x27")

/-- The `for segment in segments[1:]` loop of `resolve_path`. -/
def resolveSegments (p : Process) (value : RVal) :
    List PathSegment → Except String RVal
  | [] => .ok value
  | seg :: rest =>
    match resolve_segment p value seg with
    | .ok v2 => resolveSegments p v2 rest
    | .error e => .error e

/-- `resolve_path`: tokenize, look the first identifier up in the
frame (the source performs the same `FindVariable` call twice before
failing), then apply the remaining segments
(`path_resolver.py` lines 118-154). -/
def resolve_path (p : Process) (frame : Frame) (path : String) :
    Except String RVal :=
  match tokenize_path path with
  | .error e => .error e
  | .ok segments =>
    match segments with
    | [] => .error "Empty path"
    | first :: restSegs =>
      match first with
      | .ident nm =>
        let value := frame.findVariable nm
        if value.valid then resolveSegments p value restSegs
        else
          let value2 := frame.findVariable nm
          if value2.valid then resolveSegments p value2 restSegs
          else .error ("Variable \x27" ++ nm ++ "\x27 not found in current scope")
      | _ => .error "Path must start with a variable name"

end Fpy.PathResolver

namespace Fpy.Serializer

open Fpy

/-- The `(type, match-region)` split that Python's `$` anchor induces:
`$` matches at the true end of the string or just before one final
newline, and every pattern of interest ends in a non-newline literal,
so the match region is the whole string less an optional final
newline (which `re.sub` preserves and group-based rebuilding drops). -/
def dollarSplit (s : List Char) : List Char × List Char :=
  if s.getLast? = some '\n' then (s.dropLast, ['\n']) else (s, [])

/-- Regex `^PRE(.+)>$` anchored at both ends: the group between the
literal prefix and the final `>` (non-empty, newline-free, greedy is
irrelevant because the decomposition is unique). -/
def matchOneGt (pre : String) (core : List Char) : Option (List Char) :=
  if pre.data.isPrefixOf core then
    let rest := core.drop pre.length
    if rest.getLast? = some '>' then
      let mid := rest.dropLast
      if mid.isEmpty || mid.contains '\n' then none else some mid
    else none
  else none

/-- Regex `(.+),\s*LIT>$` on `r` (LIT begins with a non-space
character, so `\s*` cannot backtrack): the greedy group before the
rightmost comma whose tail is whitespace, the literal and `>`. -/
def innerCommaLit (lit : List Char) (r : List Char) : Option (List Char) :=
  ((List.range r.length).reverse).findSome? (fun i =>
    if r.getD i ' ' = ',' &&
       ((r.drop (i + 1)).dropWhile isPySpace = lit ++ ['>']) &&
       !(r.take i).isEmpty && !(r.take i).contains '\n'
    then some (r.take i) else none)

/-- Regex `^PRE(.+),\s*LIT>$`. -/
def matchCommaLit (pre lit : String) (core : List Char) : Option (List Char) :=
  if pre.data.isPrefixOf core then innerCommaLit lit.data (core.drop pre.length)
  else none

/-- Regex `\s*(.+)` anchored at both ends of `mid`, greedy `\s*`
backtracking one character when it would swallow everything. -/
def wsDotPlus (mid : List Char) : Option (List Char) :=
  let b := mid.drop (mid.takeWhile isPySpace).length
  if !b.isEmpty then (if b.contains '\n' then none else some b)
  else
    match mid.getLast? with
    | some c => if c ≠ '\n' then some [c] else none
    | none => none

/-- Regex `^PRE(.+),\s*(.+)>$` (the `Result` pattern): greedy first
group picks the rightmost comma whose tail still matches. -/
def matchTwoGt (pre : String) (core : List Char) :
    Option (List Char × List Char) :=
  if pre.data.isPrefixOf core then
    let rest0 := core.drop pre.length
    if rest0.getLast? = some '>' then
      let body := rest0.dropLast
      ((List.range body.length).reverse).findSome? (fun i =>
        if body.getD i ' ' = ',' && !(body.take i).isEmpty &&
           !(body.take i).contains '\n' then
          (wsDotPlus (body.drop (i + 1))).map (fun g2 => (body.take i, g2))
        else none)
    else none
  else none

/-- Greedy `\s*` prefix in front of an inner pattern: longest
whitespace prefix first, shrinking on failure. -/
def wsSkipThen (inner : List Char → Option (List Char)) (r : List Char) :
    Option (List Char) :=
  ((List.range ((r.takeWhile isPySpace).length + 1)).reverse).findSome?
    (fun k => inner (r.drop k))

/-- The full HashMap pattern
`^std::collections::hash::map::HashMap<(.+),\s*(.+),\s*std::hash::random::RandomState>$`. -/
def matchHashMapFull (core : List Char) : Option (List Char × List Char) :=
  let pre := "std::collections::hash::map::HashMap<"
  let lit := "std::hash::random::RandomState"
  if pre.data.isPrefixOf core then
    let rest0 := core.drop pre.length
    ((List.range rest0.length).reverse).findSome? (fun i =>
      if rest0.getD i ' ' = ',' && !(rest0.take i).isEmpty &&
         !(rest0.take i).contains '\n' then
        (wsSkipThen (innerCommaLit lit.data) (rest0.drop (i + 1))).map
          (fun g2 => (rest0.take i, g2))
      else none)
  else none

/-- One `re.sub(',\s*LIT', '', s)` pass: leftmost-first,
non-overlapping, scanning resumes after each removed match.  Each step
consumes at least one character, so the structural fuel supplied by
`remove_allocators` never runs out. -/
def reSubCommaWsLit (lit : List Char) : Nat → List Char → List Char
  | 0, l => l
  | _, [] => []
  | fuel + 1, c :: rest =>
    if c = ',' then
      let after := rest.drop (rest.takeWhile isPySpace).length
      if lit.isPrefixOf after then
        reSubCommaWsLit lit fuel (after.drop lit.length)
      else c :: reSubCommaWsLit lit fuel rest
    else c :: reSubCommaWsLit lit fuel rest

/-- `_remove_allocators` (`serializer.py` lines 134-155): strip the
four allocator/hasher parameter patterns, in order. -/
def remove_allocators (type_str : String) : String :=
  ["alloc::alloc::Global", "Global", "std::hash::random::RandomState",
   "std::collections::hash::map::RandomState"].foldl
    (fun acc lit => String.mk (reSubCommaWsLit lit.data (acc.length + 1) acc.data)) type_str

/-- `C_TO_RUST_TYPES` (`serializer.py` lines 40-64). -/
def C_TO_RUST_TYPES : List (String × String) :=
  [("int", "i32"), ("signed int", "i32"), ("long", "i64"),
   ("signed long", "i64"), ("long long", "i64"), ("signed long long", "i64"),
   ("short", "i16"), ("signed short", "i16"), ("signed char", "i8"),
   ("unsigned int", "u32"), ("unsigned long", "u64"),
   ("unsigned long long", "u64"), ("unsigned short", "u16"),
   ("unsigned char", "u8"), ("float", "f32"), ("double", "f64"),
   ("_Bool", "bool"), ("char", "char")]

/-- Dictionary lookup in `C_TO_RUST_TYPES`. -/
def cToRust (s : String) : Option String :=
  (C_TO_RUST_TYPES.find? (fun e => e.1 = s)).map (fun e => e.2)

/-- `PRIMITIVE_TYPES` (`serializer.py` lines 68-82). -/
def PRIMITIVE_TYPES : List String :=
  ["i8", "i16", "i32", "i64", "i128", "isize",
   "u8", "u16", "u32", "u64", "u128", "usize",
   "f32", "f64", "bool", "char",
   "signed char", "unsigned char", "short", "unsigned short",
   "int", "unsigned int", "long", "unsigned long",
   "long long", "unsigned long long", "float", "double", "_Bool"]

/-- `is_primitive`: strip leading `&` references and whitespace, then
test set membership. -/
def is_primitive (type_name : String) : Bool :=
  PRIMITIVE_TYPES.contains (pyStrip (pyLstripAmp type_name))

/-- The known-type dictionary inside `_simplify_module_path`. -/
def KNOWN_MODULE_TYPES : List (String × String) :=
  [("alloc::vec::Vec", "Vec"), ("alloc::string::String", "String"),
   ("core::option::Option", "Option"), ("core::result::Result", "Result"),
   ("alloc::boxed::Box", "Box"), ("alloc::sync::Arc", "Arc"),
   ("alloc::rc::Rc", "Rc"),
   ("std::collections::hash::map::HashMap", "HashMap"),
   ("std::collections::HashMap", "HashMap"),
   ("std::cell::RefCell", "RefCell"), ("std::cell::Cell", "Cell")]

/-- `_simplify_module_path` (`serializer.py` lines 218-249). -/
def simplify_module_path (type_name : String) : String :=
  match KNOWN_MODULE_TYPES.find? (fun e => e.1 = type_name) with
  | some e => e.2
  | none =>
    if pyIn "::" type_name then
      ((pySplitColons type_name).getLast?).getD ""
    else type_name

/-- `_split_generic_params` (`serializer.py` lines 187-215): split on
top-level commas, tracking angle-bracket depth (which Python lets go
negative). -/
def split_generic_params (params : String) : List String :=
  let step := fun (st : List String × List Char × Int) (c : Char) =>
    let (result, current, depth) := st
    if c = '<' then (result, current ++ [c], depth + 1)
    else if c = '>' then (result, current ++ [c], depth - 1)
    else if c = ',' && depth = 0 then
      (result ++ [String.mk (pyStripChars current)], [], depth)
    else (result, current ++ [c], depth)
  let fin := params.data.foldl step ([], [], 0)
  if (pyStripChars fin.2.1).isEmpty then fin.1
  else fin.1 ++ [String.mk (pyStripChars fin.2.1)]

/-- Regex `^([^<]+)<(.+)>$` (used by `_normalize_generic_type` and
`_extract_type_name`): outer name up to the first `<`, inner text up
to the final `>`. -/
def genericMatch (core : List Char) : Option (List Char × List Char) :=
  let outer := core.takeWhile (fun c => c ≠ '<')
  if outer.isEmpty then none
  else if outer.length = core.length then none
  else
    let rest := core.drop (outer.length + 1)
    if rest.getLast? = some '>' then
      let inner := rest.dropLast
      if inner.isEmpty || inner.contains '\n' then none else some (outer, inner)
    else none

/-- `TYPE_NORMALIZATION` (`serializer.py` lines 20-37): the ordered
whole-signature pattern table; the first matching pattern's `re.sub`
result, or `none`. -/
def applyTypeNormalization (s : String) : Option String :=
  let sp := dollarSplit s.data
  let core := sp.1
  let keepNl := fun (r : Option String) => r.map (fun x => x ++ String.mk sp.2)
  keepNl (
    (matchCommaLit "alloc::vec::Vec<" "alloc::alloc::Global" core).map
      (fun g => "Vec<" ++ String.mk g ++ ">") <|>
    (if core = "alloc::string::String".data then some "String" else none) <|>
    (matchOneGt "alloc::vec::Vec<" core).map
      (fun g => "Vec<" ++ String.mk g ++ ">") <|>
    (matchOneGt "core::option::Option<" core).map
      (fun g => "Option<" ++ String.mk g ++ ">") <|>
    (matchTwoGt "core::result::Result<" core).map
      (fun gg => "Result<" ++ String.mk gg.1 ++ ", " ++ String.mk gg.2 ++ ">") <|>
    (matchOneGt "alloc::boxed::Box<" core).map
      (fun g => "Box<" ++ String.mk g ++ ">") <|>
    (matchCommaLit "alloc::sync::Arc<" "alloc::alloc::Global" core).map
      (fun g => "Arc<" ++ String.mk g ++ ">") <|>
    (matchOneGt "alloc::sync::Arc<" core).map
      (fun g => "Arc<" ++ String.mk g ++ ">") <|>
    (matchCommaLit "alloc::rc::Rc<" "alloc::alloc::Global" core).map
      (fun g => "Rc<" ++ String.mk g ++ ">") <|>
    (matchOneGt "alloc::rc::Rc<" core).map
      (fun g => "Rc<" ++ String.mk g ++ ">") <|>
    (if core = "&str".data then some "&str" else none) <|>
    (matchHashMapFull core).map
      (fun gg => "HashMap<" ++ String.mk gg.1 ++ ", " ++ String.mk gg.2 ++ ">") <|>
    (matchOneGt "std::collections::hash::map::HashMap<" core).map
      (fun g => "HashMap<" ++ String.mk g ++ ">"))

/-- Regex `^(\w+)\[(\d+)\]$` of the C-array step. -/
def arrayMatch (s : String) : Option (String × String) :=
  let core := (dollarSplit s.data).1
  let w := core.takeWhile isWordChar
  if w.isEmpty then none
  else
    let rest := core.drop w.length
    if rest.head? = some '[' then
      let ds := (rest.drop 1).takeWhile isDigitChar
      if ds.isEmpty then none
      else if rest.drop (1 + ds.length) = [']'] then
        some (String.mk w, String.mk ds)
      else none
    else none

/-- `_normalize_generic_type` (`serializer.py` lines 158-184), with
the module-level recursion into `normalize_type_name` passed as `ntn`. -/
def normalize_generic_type (ntn : String → String) (type_str : String) : String :=
  match genericMatch (dollarSplit type_str.data).1 with
  | none => type_str
  | some oi =>
    let outer := simplify_module_path (String.mk oi.1)
    let inner_types := split_generic_params (String.mk oi.2)
    let normalized := inner_types.map (fun t => ntn (pyStrip t))
    outer ++ "<" ++ strIntercalate ", " normalized ++ ">"

/-- `_extract_type_name` (`serializer.py` lines 252-274). -/
def extract_type_name (ntn : String → String) (full_path : String) : String :=
  if !pyIn "::" full_path then full_path
  else if pyIn "<" full_path then
    match genericMatch (dollarSplit full_path.data).1 with
    | some oi =>
      let outer := (((pySplitColons (String.mk oi.1))).getLast?).getD ""
      outer ++ "<" ++ ntn (String.mk oi.2) ++ ">"
    | none => (((pySplitColons full_path)).getLast?).getD ""
  else (((pySplitColons full_path)).getLast?).getD ""

/-- `_normalize_inner_types` (`serializer.py` lines 277-293). -/
def normalize_inner_types (ntn : String → String) (type_str : String) : String :=
  if pyIn "<" type_str then normalize_generic_type ntn type_str
  else
    match cToRust type_str with
    | some r => r
    | none => type_str

/-- `normalize_type_name` (`serializer.py` lines 85-131), with explicit
structural fuel for the recursion through nested generic parameters
(the wrapper below supplies ample fuel; nesting depth is below the
input's length, so the fuel never runs out there). -/
def normalize_type_name_fueled : Nat → String → String
  | 0 => fun s => s
  | fuel + 1 => fun lldb_type =>
    if lldb_type.data.isEmpty then lldb_type
    else
      let t1 := remove_allocators lldb_type
      match cToRust t1 with
      | some r => r
      | none =>
        match applyTypeNormalization t1 with
        | some result => normalize_inner_types (normalize_type_name_fueled fuel) result
        | none =>
          if pyIn "<" t1 then
            normalize_generic_type (normalize_type_name_fueled fuel) t1
          else
            match arrayMatch t1 with
            | some es =>
              "[" ++ (cToRust es.1).getD es.1 ++ "; " ++ es.2 ++ "]"
            | none =>
              if pyIn "::" t1 && !pyStartsWith t1 "&" then
                extract_type_name (normalize_type_name_fueled fuel) t1
              else t1

/-- `normalize_type_name` with ample fuel: the nesting depth of a type
signature is below its character count. -/
def normalize_type_name (s : String) : String :=
  normalize_type_name_fueled (s.length + 1) s

end Fpy.Serializer

namespace Fpy.Serializer

open Fpy

/-- A JSON-serializable Python value as `value_to_json` produces it.
Python floats are carried as their source strings (float arithmetic is
out of scope; no claim depends on it). -/
inductive Json where
  | null
  | bool (b : Bool)
  | num (n : Int)
  | float (text : String)
  | str (s : String)
  | arr (elems : List Json)
  | obj (fields : List (String × Json))

/-- Python's `inner_value is None` test (the serializer uses `None`
both as its sentinel and as the JSON null). -/
def Json.isNull : Json → Bool
  | .null => true
  | _ => false

/-- The serializer's visited set.  Python keeps a `set` of addresses;
this model additionally records, as ghost data, the type name of the
value that inserted each address — membership tests use only the
address, so the behaviour is unchanged. -/
abbrev Visited := List (Nat × String)

/-- `addr in visited`. -/
def visContains (vis : Visited) (a : Nat) : Bool :=
  vis.any (fun e => e.1 = a)

/-- `visited.add(addr)` (with the inserting value's type name as ghost
payload). -/
def visAdd (vis : Visited) (a : Nat) (t : String) : Visited :=
  if visContains vis a then vis else (a, t) :: vis

/-- The pointer-type test of the cycle guard (`serializer.py` line
366): `any(p in type_name for p in ['Arc<', 'Rc<', 'Box<', '*const',
'*mut'])`. -/
def isPtrTypeName (t : String) : Bool :=
  pyIn "Arc<" t || pyIn "Rc<" t || pyIn "Box<" t || pyIn "*const" t ||
  pyIn "*mut" t

/-- Python truthiness of an optional string (`None` and `""` are both
falsy). -/
def pyTruthy (o : Option String) : Option String :=
  match o with
  | some s => if s.data.isEmpty then none else some s
  | none => none

/-- Digit value in a given base, accepting both letter cases. -/
def digitValue (base : Nat) (c : Char) : Option Nat :=
  let d :=
    if '0' ≤ c && c ≤ '9' then some (c.toNat - '0'.toNat)
    else if 'a' ≤ c && c ≤ 'z' then some (c.toNat - 'a'.toNat + 10)
    else if 'A' ≤ c && c ≤ 'Z' then some (c.toNat - 'A'.toNat + 10)
    else none
  match d with
  | some v => if v < base then some v else none
  | none => none

/-- Parse a digit run in a base; `none` on an empty run or a bad digit. -/
def parseDigits (base : Nat) (ds : List Char) : Option Nat :=
  if ds.isEmpty then none
  else
    ds.foldl (fun acc c =>
      match acc, digitValue base c with
      | some a, some v => some (a * base + v)
      | _, _ => none) (some 0)

/-- Python `int(s, 0)`: optional surrounding whitespace and sign, then
a `0x`/`0o`/`0b` prefixed literal or a decimal literal (which, in base
0, must not have leading zeros unless it is zero).  Digit-group
underscores are not modelled; on such input this returns `none` where
Python parses, which no claim exercises. -/
def pyIntParse (s : String) : Option Int :=
  let t := pyStripChars s.data
  let signSplit : Bool × List Char :=
    match t with
    | '-' :: r => (true, r)
    | '+' :: r => (false, r)
    | r => (false, r)
  let mag : Option Nat :=
    match signSplit.2 with
    | '0' :: x :: r =>
      if x = 'x' || x = 'X' then parseDigits 16 r
      else if x = 'o' || x = 'O' then parseDigits 8 r
      else if x = 'b' || x = 'B' then parseDigits 2 r
      else
        let all := '0' :: x :: r
        if all.all (fun c => c = '0') then parseDigits 10 all else none
    | other => parseDigits 10 other
  mag.map (fun m => if signSplit.1 then -(m : Int) else (m : Int))

/-- Mantissa of a float literal: digits, digits`.`digits, `.`digits or
digits`.`. -/
def floatMantOk (m : List Char) : Bool :=
  match m.splitOn '.' with
  | [intPart] => !intPart.isEmpty && intPart.all isDigitChar
  | [intPart, fracPart] =>
    (intPart.all isDigitChar && fracPart.all isDigitChar) &&
    (!intPart.isEmpty || !fracPart.isEmpty)
  | _ => false

/-- Exponent of a float literal: optional sign then digits. -/
def floatExpOk (e : List Char) : Bool :=
  let e := match e with
    | c :: r => if c = '+' || c = '-' then r else c :: r
    | [] => []
  !e.isEmpty && e.all isDigitChar

/-- A conservative model of Python `float(s)` succeeding: sign, then
digits with an optional fraction and exponent, or a bare fraction, or
`inf`/`infinity`/`nan` (any case). -/
def looksLikeFloat (s : String) : Bool :=
  let t0 := pyStripChars s.data
  let t := match t0 with
    | c :: r => if c = '+' || c = '-' then r else c :: r
    | [] => []
  let lower := t.map (fun c =>
    if 'A' ≤ c && c ≤ 'Z' then Char.ofNat (c.toNat + 32) else c)
  if lower = "inf".data || lower = "infinity".data || lower = "nan".data then
    true
  else
    let parts := t.splitOn 'e'
    let parts := if parts.length = 1 then t.splitOn 'E' else parts
    match parts with
    | [m] => floatMantOk m
    | [m, e] => floatMantOk m && floatExpOk e
    | _ => false

/-- `_serialize_primitive` (`serializer.py` lines 412-438). -/
def serialize_primitive (value : RVal) : Json :=
  let type_name := typeName value
  match getValue value with
  | none => Json.null
  | some val_str =>
    if type_name = "bool" || type_name = "_Bool" then
      Json.bool (asciiLower val_str = "true")
    else if type_name = "char" then
      Json.str (pyStripChar (Char.ofNat 39) val_str)
    else if type_name = "f32" || type_name = "f64" || type_name = "float" ||
            type_name = "double" then
      Json.float val_str
    else
      match pyIntParse val_str with
      | some n => Json.num n
      | none =>
        if looksLikeFloat val_str then Json.float val_str else Json.str val_str

/-- `_serialize_str_ref` (`serializer.py` lines 485-490). -/
def serialize_str_ref (value : RVal) : Json :=
  match pyTruthy (getSummary value) with
  | some summary => Json.str (pyStripChar '"' summary)
  | none => Json.str "<&str>"

/-- `_serialize_string` (`serializer.py` lines 442-482): prefer the
host summary, else read the backing buffer, decoding UTF-8 with
replacement. -/
def serialize_string (p : Process) (value : RVal) : Json :=
  match pyTruthy (getSummary value) with
  | some summary => Json.str (pyStripChar '"' summary)
  | none =>
    let vec := getChildMemberWithName value "vec"
    if ¬ vec.valid then Json.str ""
    else
      let len_child := getChildMemberWithName vec "len"
      if ¬ len_child.valid then Json.str ""
      else
        let length := getValueAsUnsigned len_child 0
        if length = 0 then Json.str ""
        else
          let fallback := Json.str ("<String len=" ++ toString length ++ ">")
          let buf := getChildMemberWithName vec "buf"
          if ¬ buf.valid then fallback
          else
            match find_pointer_in_buf buf with
            | some ptr =>
              if ptr.valid then
                let ptr_addr := getValueAsUnsigned ptr 0
                if ptr_addr ≠ 0 then
                  match p.readMemory ptr_addr (min length 1024) with
                  | some data => Json.str (p.utf8Replace data)
                  | none => fallback
                else fallback
              else fallback
            | none => fallback

/-- Does a serialized object carry a key (Python `'strong' in
inner_value` on a dict)? -/
def jsonHasKey (j : Json) (k : String) : Bool :=
  match j with
  | .obj kvs => kvs.any (fun e => e.1 = k)
  | _ => false

/-- Python `inner_value['value']` on a serialized object. -/
def jsonGet (j : Json) (k : String) : Option Json :=
  match j with
  | .obj kvs => (kvs.find? (fun e => e.1 = k)).map (fun e => e.2)
  | _ => none

/-- Python dict assignment `result[name] = v`: overwrite in place or
append. -/
def dictInsert (l : List (String × Json)) (k : String) (v : Json) :
    List (String × Json) :=
  if l.any (fun e => e.1 = k) then
    l.map (fun e => if e.1 = k then (k, v) else e)
  else l ++ [(k, v)]

/-- `_serialize_vec` (`serializer.py` lines 493-540), with the
recursive serialization of one element (at `depth + 1`, threading the
visited set) passed as `vj`.  The source's blanket `except` cannot
fire in this model (all embedded operations are total). -/
def serialize_vec (p : Process) (vj : RVal → Visited → Json × Visited)
    (value : RVal) (visited : Visited) : Json × Visited :=
  let len_child := getChildMemberWithName value "len"
  if ¬ len_child.valid then (Json.arr [], visited)
  else
    let length := getValueAsUnsigned len_child 0
    if length = 0 then (Json.arr [], visited)
    else
      let unavailable :=
        (Json.arr [Json.str ("<" ++ toString length ++ " elements>")], visited)
      let elem_type := getTemplateArgumentType value.type 0
      if ¬ elem_type.valid then unavailable
      else
        let elem_size := elem_type.byteSize
        let buf := getChildMemberWithName value "buf"
        if ¬ buf.valid then unavailable
        else
          match find_pointer_in_buf buf with
          | none => unavailable
          | some ptr =>
            if ¬ ptr.valid then unavailable
            else
              let ptr_addr := getValueAsUnsigned ptr 0
              if ptr_addr = 0 then (Json.arr [], visited)
              else
                let max_elements := min length 100
                let st := (List.range max_elements).foldl
                  (fun (st : List Json × Visited) i =>
                    let addr : Int := (ptr_addr : Int) + (i : Int) * (elem_size : Int)
                    let elem := createValueFromAddress p addr elem_type
                    let r := vj elem st.2
                    (st.1 ++ [r.1], r.2)) ([], visited)
                let elements :=
                  if length > max_elements then
                    st.1 ++ [Json.str ("... (" ++ toString (length - max_elements) ++ " more)")]
                  else st.1
                (Json.arr elements, st.2)

/-- `_serialize_option` (`serializer.py` lines 543-639). -/
def serialize_option (p : Process) (vj : RVal → Visited → Json × Visited)
    (value : RVal) (visited : Visited) : Json × Visited :=
  let kindKV := ("__ferrumpy_kind__", Json.str "option")
  let type_name := typeName value
  if pyEndsWith type_name "::None" then
    (Json.obj [kindKV, ("__variant__", Json.str "None"), ("__inner__", Json.null)],
     visited)
  else if pyEndsWith type_name "::Some" then
    let inner := getChildAtIndex value 0
    if inner.valid then
      let r := vj inner visited
      (Json.obj [kindKV, ("__variant__", Json.str "Some"), ("__inner__", r.1)], r.2)
    else
      (Json.obj [kindKV, ("__variant__", Json.str "Some"), ("__inner__", Json.null)],
       visited)
  else
    let variants := getChildMemberWithName value "$variants$"
    let blockResult : Option (Json × Visited) :=
      if variants.valid then
        let r1 : Option (Json × Visited) :=
          let variant1 := getChildMemberWithName variants "$variant$1"
          if variant1.valid then
            let discr := getChildMemberWithName variant1 "$discr$"
            if discr.valid && getValueAsUnsigned discr 0 = 1 then
              let val_child := getChildMemberWithName variant1 "value"
              if val_child.valid then
                let inner0 := getChildMemberWithName val_child "__0"
                let inner := if inner0.valid then inner0 else getChildAtIndex val_child 0
                if inner.valid then
                  let r := vj inner visited
                  some (Json.obj [kindKV, ("__variant__", Json.str "Some"),
                    ("__inner__", r.1)], r.2)
                else none
              else none
            else none
          else none
        match r1 with
        | some r => some r
        | none =>
          let variant0 := getChildMemberWithName variants "$variant$0"
          if variant0.valid then
            let discr := getChildMemberWithName variant0 "$discr$"
            if discr.valid && getValueAsUnsigned discr 1 = 0 then
              some (Json.obj [kindKV, ("__variant__", Json.str "None"),
                ("__inner__", Json.null)], visited)
            else none
          else none
      else none
    match blockResult with
    | some r => r
    | none =>
      let cand := value.children.find? (fun c =>
        let n := (c.name).getD ""
        !pyStartsWith n "$" && (pyIn "Some" n || n = "__0" || n = "0"))
      match cand with
      | some child =>
        let r := vj child visited
        (Json.obj [kindKV, ("__variant__", Json.str "Some"), ("__inner__", r.1)], r.2)
      | none =>
        match pyTruthy (getSummary value) with
        | some summary =>
          if pyIn "Some" summary then
            (Json.obj [kindKV, ("__variant__", Json.str "Some"),
              ("__summary__", Json.str summary)], visited)
          else if pyIn "None" summary then
            (Json.obj [kindKV, ("__variant__", Json.str "None"),
              ("__inner__", Json.null)], visited)
          else
            (Json.obj [kindKV, ("__variant__", Json.str "unknown"),
              ("__summary__", Json.str summary)], visited)
        | none =>
          (Json.obj [kindKV, ("__variant__", Json.str "unknown"),
            ("__summary__", Json.str "")], visited)

/-- `_serialize_result` (`serializer.py` lines 641-683). -/
def serialize_result (p : Process) (vj : RVal → Visited → Json × Visited)
    (value : RVal) (visited : Visited) : Json × Visited :=
  let kindKV := ("__ferrumpy_kind__", Json.str "result")
  let type_name := typeName value
  if pyEndsWith type_name "::Ok" then
    let inner := getChildAtIndex value 0
    if inner.valid then
      let r := vj inner visited
      (Json.obj [kindKV, ("__variant__", Json.str "Ok"), ("__inner__", r.1)], r.2)
    else
      (Json.obj [kindKV, ("__variant__", Json.str "Ok"), ("__inner__", Json.null)],
       visited)
  else if pyEndsWith type_name "::Err" then
    let inner := getChildAtIndex value 0
    if inner.valid then
      let r := vj inner visited
      (Json.obj [kindKV, ("__variant__", Json.str "Err"), ("__inner__", r.1)], r.2)
    else
      (Json.obj [kindKV, ("__variant__", Json.str "Err"), ("__inner__", Json.null)],
       visited)
  else
    match pyTruthy (getSummary value) with
    | some summary =>
      if pyIn "Ok" summary then
        (Json.obj [kindKV, ("__variant__", Json.str "Ok"),
          ("__summary__", Json.str summary)], visited)
      else if pyIn "Err" summary then
        (Json.obj [kindKV, ("__variant__", Json.str "Err"),
          ("__summary__", Json.str summary)], visited)
      else
        (Json.obj [kindKV, ("__variant__", Json.str "unknown"),
          ("__summary__", Json.str summary)], visited)
    | none =>
      (Json.obj [kindKV, ("__variant__", Json.str "unknown"),
        ("__summary__", Json.str "")], visited)

/-- Stage one of `_serialize_smart_pointer`: follow the
`ptr.pointer` chain and serialize the pointee (its `data` or `value`
member, else the pointee itself). -/
def smart_ptr_deref (p : Process) (vj : RVal → Visited → Json × Visited)
    (value : RVal) (visited : Visited) : Json × Visited :=
  let ptr := getChildMemberWithName value "ptr"
  if ptr.valid then
    let pointer := getChildMemberWithName ptr "pointer"
    if pointer.valid then
      let inner := dereference p pointer
      if inner.valid then
        let data := getChildMemberWithName inner "data"
        let afterLoop :=
          if data.valid then vj data visited
          else
            let dataV := getChildMemberWithName inner "value"
            if dataV.valid then vj dataV visited
            else (Json.null, visited)
        if afterLoop.1.isNull then vj inner afterLoop.2
        else afterLoop
      else (Json.null, visited)
    else (Json.null, visited)
  else (Json.null, visited)

/-- Stage two of `_serialize_smart_pointer`: when stage one produced
nothing (or a raw `RcBox`), retry through the `value`/`data` child. -/
def smart_ptr_value_child (vj : RVal → Visited → Json × Visited)
    (value : RVal) (st1 : Json × Visited) : Json × Visited :=
  if st1.1.isNull || jsonHasKey st1.1 "strong" then
    let val_child0 := getChildMemberWithName value "value"
    let val_child :=
      if val_child0.valid then val_child0
      else
        match value.children.find? (fun c =>
          c.name = some "value" || c.name = some "data") with
        | some c => c
        | none => val_child0
    if val_child.valid then
      if (getChildMemberWithName val_child "strong").valid then
        let real_val := getChildMemberWithName val_child "value"
        if real_val.valid then vj real_val st1.2
        else st1
      else vj val_child st1.2
    else st1
  else st1

/-- Stage three of `_serialize_smart_pointer`: last resort through the
first child, dereferenced when possible. -/
def smart_ptr_first_child (p : Process) (vj : RVal → Visited → Json × Visited)
    (value : RVal) (st2 : Json × Visited) : Json × Visited :=
  if st2.1.isNull && getNumChildren value > 0 then
    let child := getChildAtIndex value 0
    let derefd := dereference p child
    if derefd.valid then vj derefd st2.2
    else vj child st2.2
  else st2

/-- `_serialize_smart_pointer` (`serializer.py` lines 686-763).
Python's `None` plays double duty as "not yet extracted" and as the
JSON null that `value_to_json` can itself return; `Json.null` models
both, so the control flow matches the source on either reading. -/
def serialize_smart_pointer (p : Process) (vj : RVal → Visited → Json × Visited)
    (value : RVal) (visited : Visited) : Json × Visited :=
  let type_name := typeName value
  let kind :=
    if pyIn "Arc<" type_name then "arc"
    else if pyIn "Rc<" type_name then "rc"
    else if pyIn "Box<" type_name then "box"
    else "ptr"
  let st1 := smart_ptr_deref p vj value visited
  let st2 := smart_ptr_value_child vj value st1
  let st3 := smart_ptr_first_child p vj value st2
  let inner_final :=
    if jsonHasKey st3.1 "strong" || jsonHasKey st3.1 "weak" then
      match jsonGet st3.1 "value" with
      | some v => v
      | none => st3.1
    else st3.1
  (Json.obj [("__ferrumpy_kind__", Json.str kind), ("__inner__", inner_final)],
   st3.2)

/-- `_serialize_tuple` (`serializer.py` lines 766-783). -/
def serialize_tuple (vj : RVal → Visited → Json × Visited)
    (value : RVal) (visited : Visited) : Json × Visited :=
  let type_name := typeName value
  let st := value.children.foldl
    (fun (st : List Json × Visited) child =>
      if child.valid then
        let r := vj child st.2
        (st.1 ++ [r.1], r.2)
      else (st.1 ++ [Json.null], st.2)) ([], visited)
  (Json.obj [("__ferrumpy_kind__", Json.str "tuple"),
    ("__elements__", Json.arr st.1), ("__type__", Json.str type_name)], st.2)

/-- `_serialize_fixed_array` (`serializer.py` lines 786-804). -/
def serialize_fixed_array (vj : RVal → Visited → Json × Visited)
    (value : RVal) (visited : Visited) : Json × Visited :=
  let type_name := typeName value
  let num_children := getNumChildren value
  let st := (value.children.take 100).foldl
    (fun (st : List Json × Visited) child =>
      if child.valid then
        let r := vj child st.2
        (st.1 ++ [r.1], r.2)
      else (st.1 ++ [Json.null], st.2)) ([], visited)
  (Json.obj [("__ferrumpy_kind__", Json.str "array"),
    ("__elements__", Json.arr st.1), ("__type__", Json.str type_name),
    ("__length__", Json.num (num_children : Int))], st.2)

/-- `_serialize_struct` (`serializer.py` lines 807-833): the first 50
children by position, skipping invalid and `$`-internal ones; the
per-field `except` is dead here since the model is total. -/
def serialize_struct (vj : RVal → Visited → Json × Visited)
    (value : RVal) (visited : Visited) : Json × Visited :=
  let num_children := getNumChildren value
  let st := ((value.children.enum).take 50).foldl
    (fun (st : List (String × Json) × Visited) ic =>
      let child := ic.2
      if ¬ child.valid then st
      else
        let nm := (child.name).getD ("_" ++ toString ic.1)
        if pyStartsWith nm "$" then st
        else
          let r := vj child st.2
          (dictInsert st.1 nm r.1, r.2)) ([], visited)
  let result :=
    if num_children > 50 then
      dictInsert st.1 "__truncated__"
        (Json.str (toString (num_children - 50) ++ " more fields"))
    else st.1
  (Json.obj result, st.2)

/-- The type-name dispatch of `value_to_json` (`serializer.py` lines
372-409), applied after the validity, depth and cycle guards. -/
def value_to_json_dispatch (p : Process) (vj : RVal → Visited → Json × Visited)
    (value : RVal) (visited2 : Visited) : Json × Visited :=
  let type_name := typeName value
  if is_primitive type_name then (serialize_primitive value, visited2)
  else if pyIn "String" type_name && pyIn "alloc::string::String" type_name then
    (serialize_string p value, visited2)
  else if type_name = "&str" then (serialize_str_ref value, visited2)
  else if pyIn "Vec<" type_name then serialize_vec p vj value visited2
  else if pyIn "Option<" type_name then serialize_option p vj value visited2
  else if pyIn "Result<" type_name then serialize_result p vj value visited2
  else if pyIn "Box<" type_name || pyIn "Arc<" type_name ||
          pyIn "Rc<" type_name then
    serialize_smart_pointer p vj value visited2
  else if pyStartsWith type_name "(" && pyEndsWith type_name ")" then
    serialize_tuple vj value visited2
  else if (pyIn "[" type_name && pyIn "]" type_name) ||
          pyStartsWith type_name "[" then
    serialize_fixed_array vj value visited2
  else serialize_struct vj value visited2

/-- `value_to_json` (`serializer.py` lines 346-409), recursing
structurally on `gas`, which the wrapper below ties to the source's
depth ceiling (`gas = 21 - depth`): with that invariant the exhausted
case coincides exactly with the source's `depth > 20` early return,
so the wrapper equals the source's behaviour at every depth.
Validity check, depth ceiling, heap-pointer cycle guard, then
dispatch on the type name; the visited set is threaded explicitly
(Python mutates one shared set). -/
def value_to_jsonGas (p : Process) : Nat → RVal → Visited → Nat → Json × Visited
  | 0 => fun value visited _depth =>
    if ¬ value.valid then (Json.null, visited)
    else (Json.obj [("__truncated__", Json.str "max depth")], visited)
  | gas + 1 => fun value visited depth =>
    if ¬ value.valid then (Json.null, visited)
    else if depth > 20 then
      (Json.obj [("__truncated__", Json.str "max depth")], visited)
    else
      let vj := fun v vis => value_to_jsonGas p gas v vis (depth + 1)
      let type_name := typeName value
      let addr := getLoadAddress value
      let is_ptr_type := isPtrTypeName type_name
      if is_ptr_type && addr ≠ 0 && visContains visited addr then
        (Json.obj [("__cycle__", Json.str ("0x" ++ hexStr addr))], visited)
      else
        let visited2 :=
          if is_ptr_type && addr ≠ 0 then visAdd visited addr type_name
          else visited
        value_to_json_dispatch p vj value visited2

/-- `value_to_json`: the source signature; the gas argument realises
the source's own termination argument (each recursive call increases
`depth` by one and depths above 20 return at once). -/
def value_to_json (p : Process) (value : RVal) (visited : Visited)
    (depth : Nat) : Json × Visited :=
  value_to_jsonGas p (21 - depth) value visited depth

end Fpy.Serializer

namespace Fpy.Providers

open Fpy Fpy.Serializer

/-- `FormatOptions` (`providers/__init__.py` lines 18-26), with the
source's defaults. -/
structure FormatOptions where
  expand : Bool := false
  deep : Bool := false
  show_addr : Bool := false
  max_depth : Nat := 5
  truncate_at : Nat := 10
  show_truncate_end : Nat := 3

/-- `re.match` for an exactly-anchored literal pattern `^LIT$` (the
`$` also matches just before one trailing newline). -/
def matchLitNl (lit : String) (s : String) : Bool :=
  s = lit || s = lit ++ "\n"

/-- `re.match` for `^PRE.+>$`. -/
def matchGenDollar (pre : String) (s : String) : Bool :=
  (matchOneGt pre (dollarSplit s.data).1).isSome

/-- `re.match` for `^PRE.+>` with no end anchor: the prefix, one or
more non-newline characters, then a `>` somewhere on the same line. -/
def matchGenOpen (pre : String) (s : String) : Bool :=
  if pre.data.isPrefixOf s.data then
    let rest := s.data.drop pre.length
    ((rest.takeWhile (fun c => c ≠ '\n')).drop 1).contains '>'
  else false

/-- Replace every occurrence of a character by a string (Python
`str.replace` with a one-character needle). -/
def strReplaceChar (c : Char) (r : List Char) (s : List Char) : List Char :=
  s.foldr (fun x acc => if x = c then r ++ acc else x :: acc) []

/-- `_escape_string` (`providers/__init__.py` lines 282-289): the five
sequential replacements. -/
def escape_string (text : String) : String :=
  let t := strReplaceChar '\\' ['\\', '\\'] text.data
  let t := strReplaceChar '"' ['\\', '"'] t
  let t := strReplaceChar '\n' ['\\', 'n'] t
  let t := strReplaceChar '\r' ['\\', 'r'] t
  let t := strReplaceChar '\t' ['\\', 't'] t
  String.mk t

/-- `_get_enum_payload_simple` (`providers/__init__.py` lines 444-462). -/
def get_enum_payload_simple (value : RVal) : RVal :=
  let payload := getChildMemberWithName value "value"
  if payload.valid then
    let inner := getChildMemberWithName payload "__0"
    if inner.valid then inner
    else
      let inner2 := getChildAtIndex payload 0
      if inner2.valid then inner2 else payload
  else
    let inner := getChildMemberWithName value "__0"
    if inner.valid then inner else RVal.invalid

/-- `_get_enum_payload` (`providers/__init__.py` lines 465-479). -/
def get_enum_payload (value : RVal) (variant_index : Nat) : RVal :=
  let variants := getChildMemberWithName value "$variants$"
  let viaVariants : Option RVal :=
    if variants.valid then
      let variant := getChildMemberWithName variants
        ("$variant$" ++ toString variant_index)
      if variant.valid then
        let val_wrapper := getChildMemberWithName variant "value"
        if val_wrapper.valid then
          let inner := getChildMemberWithName val_wrapper "__0"
          if inner.valid then some inner
          else if getNumChildren val_wrapper > 0 then
            some (getChildAtIndex val_wrapper 0)
          else some val_wrapper
        else none
      else none
    else none
  match viaVariants with
  | some r => r
  | none => get_enum_payload_simple value

/-- `NICHE_THRESHOLD` (`providers/__init__.py` line 519): the
conservative niche-discriminant split point `1 << 62`. -/
def NICHE_THRESHOLD : Nat := 1 <<< 62

/-- `_format_struct_compact` (`providers/__init__.py` lines 102-125). -/
def format_struct_compact (value : RVal) (opts : FormatOptions) : String :=
  let type_name := typeName value
  let short_name := ((pySplitColons type_name).getLast?).getD ""
  let num_children := getNumChildren value
  if num_children = 0 then short_name
  else
    let show_count := min num_children 3
    let parts := ((value.children.enum).take show_count).filterMap
      (fun ic =>
        let child := ic.2
        if ¬ child.valid then none
        else
          let child_name :=
            match pyTruthy child.name with
            | some n => n
            | none => "_" ++ toString ic.1
          let child_val :=
            ((pyTruthy (getSummary child)).orElse
              (fun _ => pyTruthy (getValue child))).getD "..."
          some (child_name ++ ": " ++ child_val))
    let parts := if num_children > 3 then parts ++ ["..."] else parts
    short_name ++ " \x7b " ++ strIntercalate ", " parts ++ " \x7d"

/-- `_format_struct_expanded` (`providers/__init__.py` lines 128-152),
with the module-level `format_value` recursion passed as `fv`
(arguments: value, expand, depth, options). -/
def format_struct_expanded (fv : RVal → Bool → Nat → Option FormatOptions → String)
    (value : RVal) (opts : FormatOptions) (depth : Nat) : String :=
  let type_name := typeName value
  let indent := strRepeat "  " depth
  let child_indent := strRepeat "  " (depth + 1)
  let short_name := ((pySplitColons type_name).getLast?).getD ""
  let num_children := getNumChildren value
  let max_show := if opts.deep then 20 else 10
  let bodyLines := ((value.children.enum).take (min num_children max_show)).filterMap
    (fun ic =>
      let child := ic.2
      if ¬ child.valid then none
      else
        let child_name :=
          match pyTruthy child.name with
          | some n => n
          | none => "_" ++ toString ic.1
        let child_val := fv child false (depth + 1) (some opts)
        some (child_indent ++ child_name ++ ": " ++ child_val ++ ","))
  let truncLines :=
    if num_children > max_show then
      [child_indent ++ "... (" ++ toString (num_children - max_show) ++ " more)"]
    else []
  strIntercalate "\n"
    ([short_name ++ " \x7b"] ++ bodyLines ++ truncLines ++ [indent ++ "\x7d"])

/-- `_format_default` (`providers/__init__.py` lines 78-99). -/
def format_default (p : Process) (fv : RVal → Bool → Nat → Option FormatOptions → String)
    (value : RVal) (opts : FormatOptions) (depth : Nat) : String :=
  let summaryBranch : Option String :=
    match pyTruthy (getSummary value) with
    | some summary => if ¬ opts.deep then some summary else none
    | none => none
  match summaryBranch with
  | some s => s
  | none =>
    match pyTruthy (getValue value) with
    | some val => val
    | none =>
      let num_children := getNumChildren value
      if num_children > 0 then
        if opts.expand || opts.deep then
          format_struct_expanded fv value opts depth
        else format_struct_compact value opts
      else p.strRepr value

/-- `_format_string` (`providers/__init__.py` lines 160-221). -/
def format_string (p : Process) (fv : RVal → Bool → Nat → Option FormatOptions → String)
    (value : RVal) (opts : FormatOptions) (depth : Nat) : String :=
  match pyTruthy (getSummary value) with
  | some summary =>
    if opts.expand then
      let vec := getChildMemberWithName value "vec"
      if vec.valid then
        let len_child := getChildMemberWithName vec "len"
        if len_child.valid then
          summary ++ "  (len=" ++ toString (getValueAsUnsigned len_child 0) ++ ")"
        else summary
      else summary
    else summary
  | none =>
    let vec := getChildMemberWithName value "vec"
    if ¬ vec.valid then format_default p fv value opts depth
    else
      let len_child := getChildMemberWithName vec "len"
      if ¬ len_child.valid then format_default p fv value opts depth
      else
        let length := getValueAsUnsigned len_child 0
        if length = 0 then "\"\""
        else
          let buf := getChildMemberWithName vec "buf"
          if ¬ buf.valid then "\"<" ++ toString length ++ " bytes>\""
          else
            match find_pointer_in_buf buf with
            | none => "\"<" ++ toString length ++ " bytes>\""
            | some ptr =>
              let ptr_addr := getValueAsUnsigned ptr 0
              if ptr_addr = 0 then "\"\""
              else
                let max_len := min length 256
                match p.readMemory ptr_addr max_len with
                | none => "\"<error reading " ++ toString length ++ " bytes>\""
                | some data =>
                  match p.utf8Decode data with
                  | some text0 =>
                    let text1 := escape_string text0
                    let text2 := if length > 256 then text1 ++ "..." else text1
                    if opts.expand then
                      "\"" ++ text2 ++ "\"  (len=" ++ toString length ++ ")"
                    else "\"" ++ text2 ++ "\""
                  | none =>
                    "\"<invalid UTF-8, " ++ toString length ++ " bytes>\""

/-- The element closure of `_format_vec`: materialise the element at
`ptr_addr + i * elem_size` and format it non-expanded one level deeper. -/
def vec_get_element (p : Process)
    (fv : RVal → Bool → Nat → Option FormatOptions → String)
    (ptr_addr : Nat) (elem_type : RType) (depth : Nat) : Int → String :=
  fun i =>
    let addr : Int := (ptr_addr : Int) + i * (elem_type.byteSize : Int)
    let elem := createValueFromAddress p addr elem_type
    if elem.valid then fv elem false (depth + 1) (some {})
    else "?"

/-- `_format_vec` (`providers/__init__.py` lines 296-382): length,
capacity discovery, empty case, element materialisation with smart
truncation (`truncate_at` leading elements overall, of which the last
`show_truncate_end` come from the tail). -/
def format_vec (p : Process) (fv : RVal → Bool → Nat → Option FormatOptions → String)
    (value : RVal) (opts : FormatOptions) (depth : Nat) : String :=
  let len_child := getChildMemberWithName value "len"
  if ¬ len_child.valid then format_default p fv value opts depth
  else
    let length := getValueAsUnsigned len_child 0
    let buf := getChildMemberWithName value "buf"
    let cap : Nat :=
      if buf.valid then
        let cap_child := getChildMemberWithName buf "cap"
        if cap_child.valid then getValueAsUnsigned cap_child 0
        else
          let inner := getChildMemberWithName buf "inner"
          if inner.valid then
            let cap_child2 := getChildMemberWithName inner "cap"
            if cap_child2.valid then
              let inner_cap := getChildMemberWithName cap_child2 "__0"
              if inner_cap.valid then getValueAsUnsigned inner_cap 0
              else getValueAsUnsigned cap_child2 0
            else 0
          else 0
      else 0
    if length = 0 then
      if opts.expand then "[]  (len=0, cap=" ++ toString cap ++ ")" else "[]"
    else
      let elem_type := getTemplateArgumentType value.type 0
      if ¬ elem_type.valid then "[?]  (len=" ++ toString length ++ ")"
      else
        let elem_size := elem_type.byteSize
        match find_pointer_in_buf buf with
        | none => "[... " ++ toString length ++ " elements]"
        | some ptr =>
          if ¬ ptr.valid then "[... " ++ toString length ++ " elements]"
          else
            let ptr_addr := getValueAsUnsigned ptr 0
            if ptr_addr = 0 then "[]"
            else
              let max_display := opts.truncate_at
              let show_end := opts.show_truncate_end
              let get_element := vec_get_element p fv ptr_addr elem_type depth
              let elements :=
                if length ≤ max_display then
                  (pyRange 0 (length : Int)).map get_element
                else
                  ((pyRange 0 ((max_display : Int) - (show_end : Int))).map get_element)
                  ++ ["... (" ++ toString (length - max_display) ++ " more)"]
                  ++ ((pyRange ((length : Int) - (show_end : Int)) (length : Int)).map
                      get_element)
              let result := "[" ++ strIntercalate ", " elements ++ "]"
              if opts.expand then
                result ++ "  (len=" ++ toString length ++ ", cap=" ++
                  toString cap ++ ")"
              else result

/-- `_format_option` (`providers/__init__.py` lines 390-441). -/
def format_option (p : Process) (fv : RVal → Bool → Nat → Option FormatOptions → String)
    (value : RVal) (opts : FormatOptions) (depth : Nat) : String :=
  let type_name := typeName value
  if pyEndsWith type_name "::None" then "None"
  else if pyEndsWith type_name "::Some" then
    let inner := get_enum_payload value 1
    if inner.valid then
      "Some(" ++ fv inner false (depth + 1) (some opts) ++ ")"
    else "Some(?)"
  else
    let variants := getChildMemberWithName value "$variants$"
    let blockRes : Option String :=
      if variants.valid then
        let variant1 := getChildMemberWithName variants "$variant$1"
        if variant1.valid then
          let discr := getChildMemberWithName variant1 "$discr$"
          if discr.valid then
            let discr_val := getValueAsUnsigned discr 0
            if discr_val = 0 then some "None"
            else
              let val_wrapper := getChildMemberWithName variant1 "value"
              if val_wrapper.valid then
                let inner := getChildMemberWithName val_wrapper "__0"
                if inner.valid then
                  some ("Some(" ++ fv inner false (depth + 1) (some opts) ++ ")")
                else some "Some(?)"
              else some "Some(?)"
          else none
        else none
      else none
    match blockRes with
    | some r => r
    | none =>
      let discr := getChildMemberWithName value "$discr$"
      if discr.valid then
        let discr_val := getValueAsUnsigned discr 0
        if discr_val = 0 then "None"
        else
          let inner := get_enum_payload_simple value
          if inner.valid then
            "Some(" ++ fv inner false (depth + 1) (some opts) ++ ")"
          else "Some(?)"
      else
        match pyTruthy (getSummary value) with
        | some summary => summary
        | none => format_default p fv value opts depth

/-- `_format_result` (`providers/__init__.py` lines 482-566),
including the niche-optimized variant-table branch that classifies the
discriminant against `NICHE_THRESHOLD`. -/
def format_result (p : Process) (fv : RVal → Bool → Nat → Option FormatOptions → String)
    (value : RVal) (opts : FormatOptions) (depth : Nat) : String :=
  let type_name := typeName value
  if pyEndsWith type_name "::Ok" then
    let inner := get_enum_payload value 0
    if inner.valid then
      "Ok(" ++ fv inner false 0 (some opts) ++ ")"
    else "Ok(?)"
  else if pyEndsWith type_name "::Err" then
    let inner := get_enum_payload value 1
    if inner.valid then
      "Err(" ++ fv inner false 0 (some opts) ++ ")"
    else "Err(?)"
  else
    let variants := getChildMemberWithName value "$variants$"
    let blockRes : Option String :=
      if variants.valid then
        let variant0 := getChildMemberWithName variants "$variant$0"
        let variant_err := getChildMemberWithName variants "$variant$"
        if variant0.valid then
          let discr := getChildMemberWithName variant0 "$discr$"
          if discr.valid then
            let discr_val := getValueAsUnsigned discr 0
            if discr_val ≥ NICHE_THRESHOLD then
              let val_wrapper := getChildMemberWithName variant0 "value"
              if val_wrapper.valid then
                let inner := getChildMemberWithName val_wrapper "__0"
                if inner.valid then
                  some ("Ok(" ++ fv inner false 0 (some opts) ++ ")")
                else some "Ok(?)"
              else some "Ok(?)"
            else
              let errFromWrapper : Option String :=
                if variant_err.valid then
                  let val_wrapper := getChildMemberWithName variant_err "value"
                  if val_wrapper.valid then
                    let inner := getChildMemberWithName val_wrapper "__0"
                    if inner.valid then
                      some ("Err(" ++ fv inner false 0 (some opts) ++ ")")
                    else none
                  else none
                else none
              match errFromWrapper with
              | some r => some r
              | none =>
                let variant1 := getChildMemberWithName variants "$variant$1"
                if variant1.valid then
                  let val_wrapper := getChildMemberWithName variant1 "value"
                  if val_wrapper.valid then
                    let inner := getChildMemberWithName val_wrapper "__0"
                    if inner.valid then
                      some ("Err(" ++ fv inner false 0 (some opts) ++ ")")
                    else some "Err(?)"
                  else some "Err(?)"
                else some "Err(?)"
          else none
        else none
      else none
    match blockRes with
    | some r => r
    | none =>
      let discr := getChildMemberWithName value "$discr$"
      if discr.valid then
        let discr_val := getValueAsUnsigned discr 0
        let inner := get_enum_payload_simple value
        if discr_val = 0 then
          if inner.valid then
            "Ok(" ++ fv inner false 0 (some opts) ++ ")"
          else "Ok(?)"
        else
          if inner.valid then
            "Err(" ++ fv inner false 0 (some opts) ++ ")"
          else "Err(?)"
      else
        match pyTruthy (getSummary value) with
        | some summary => summary
        | none => format_default p fv value opts 0

/-- `_format_box` (`providers/__init__.py` lines 573-589). -/
def format_box (p : Process) (fv : RVal → Bool → Nat → Option FormatOptions → String)
    (value : RVal) (opts : FormatOptions) : String :=
  let inner := dereference p value
  if inner.valid then
    "Box(" ++ fv inner false 0 (some opts) ++ ")"
  else
    let inner2 := getChildAtIndex value 0
    if inner2.valid then
      let derefd := dereference p inner2
      if derefd.valid then
        "Box(" ++ fv derefd false 0 (some opts) ++ ")"
      else "Box(" ++ fv inner2 false 0 (some opts) ++ ")"
    else "Box(?)"

/-- `_format_arc` (`providers/__init__.py` lines 592-622). -/
def format_arc (p : Process) (fv : RVal → Bool → Nat → Option FormatOptions → String)
    (value : RVal) (opts : FormatOptions) : String :=
  let ptr0 := getChildMemberWithName value "ptr"
  let ptr := if ptr0.valid then ptr0 else getChildAtIndex value 0
  let blockRes : Option String :=
    if ptr.valid then
      let pointer := getChildMemberWithName ptr "pointer"
      if pointer.valid then
        let inner := dereference p pointer
        if inner.valid then
          let data := getChildMemberWithName inner "data"
          let strong := getChildMemberWithName inner "strong"
          let weak := getChildMemberWithName inner "weak"
          if data.valid then
            let data_str := fv data false 0 (some opts)
            if opts.expand && strong.valid then
              let s := getValueAsUnsigned strong 0
              let w := if weak.valid then getValueAsUnsigned weak 0 else 0
              some ("Arc(" ++ data_str ++ ")  (strong=" ++ toString s ++
                ", weak=" ++ toString w ++ ")")
            else some ("Arc(" ++ data_str ++ ")")
          else none
        else none
      else none
    else none
  match blockRes with
  | some r => r
  | none =>
    match pyTruthy (getSummary value) with
    | some summary => "Arc(" ++ summary ++ ")"
    | none => "Arc(...)"

/-- `_format_rc` (`providers/__init__.py` lines 625-650). -/
def format_rc (p : Process) (fv : RVal → Bool → Nat → Option FormatOptions → String)
    (value : RVal) (opts : FormatOptions) : String :=
  let ptr0 := getChildMemberWithName value "ptr"
  let ptr := if ptr0.valid then ptr0 else getChildAtIndex value 0
  let blockRes : Option String :=
    if ptr.valid then
      let pointer := getChildMemberWithName ptr "pointer"
      if pointer.valid then
        let inner := dereference p pointer
        if inner.valid then
          let value_child := getChildMemberWithName inner "value"
          let strong := getChildMemberWithName inner "strong"
          if value_child.valid then
            let data_str := fv value_child false 0 (some opts)
            if opts.expand && strong.valid then
              let s := getValueAsUnsigned strong 0
              some ("Rc(" ++ data_str ++ ")  (strong=" ++ toString s ++ ")")
            else some ("Rc(" ++ data_str ++ ")")
          else none
        else none
      else none
    else none
  match blockRes with
  | some r => r
  | none =>
    match pyTruthy (getSummary value) with
    | some summary => "Rc(" ++ summary ++ ")"
    | none => "Rc(...)"

/-- `_format_hashmap` (`providers/__init__.py` lines 657-679). -/
def format_hashmap (value : RVal) : String :=
  let base := getChildMemberWithName value "base"
  let block1 : Option String :=
    if base.valid then
      let table := getChildMemberWithName base "table"
      if table.valid then
        let items := getChildMemberWithName table "items"
        if items.valid then
          let count := getValueAsUnsigned items 0
          if count = 0 then some "\x7b\x7d"
          else some ("\x7b...\x7d  (len=" ++ toString count ++ ")")
        else none
      else none
    else none
  match block1 with
  | some r => r
  | none =>
    let table := getChildMemberWithName value "table"
    let block2 : Option String :=
      if table.valid then
        let items := getChildMemberWithName table "items"
        if items.valid then
          some ("\x7b...\x7d  (len=" ++ toString (getValueAsUnsigned items 0) ++ ")")
        else none
      else none
    match block2 with
    | some r => r
    | none => "\x7b...\x7d"

/-- `format_value` (`providers/__init__.py` lines 34-74): the
formatter dispatch over the `_FORMATTERS` registry, in registration
order, with the address prefix.  The recursion is structural on
`fuel`, decremented at each re-entry; exhausted fuel models Python's
recursion limit (the source has no depth guard outside `deep` mode)
and no theorem depends on that case. -/
def format_value (p : Process) : Nat → RVal → Bool → Nat → Option FormatOptions → String
  | 0 => fun _ _ _ _ => "<recursion limit>"
  | f + 1 => fun value expand depth options =>
    if ¬ value.valid then "<invalid>"
    else
      let opts := options.getD { expand := expand }
      if opts.deep && depth > opts.max_depth then "..."
      else
        let fv := fun v e d o => format_value p f v e d o
        let type_name := typeName value
        let addrPref :=
          if opts.show_addr then
            let a := getLoadAddress value
            if a ≠ LLDB_INVALID_ADDRESS then "@ 0x" ++ hexStr a ++ " " else ""
          else ""
        if matchLitNl "alloc::string::String" type_name then
          addrPref ++ format_string p fv value opts depth
        else if matchLitNl "&str" type_name then
          addrPref ++ format_string p fv value opts depth
        else if matchGenDollar "alloc::vec::Vec<" type_name then
          addrPref ++ format_vec p fv value opts depth
        else if matchGenOpen "core::option::Option<" type_name then
          addrPref ++ format_option p fv value opts depth
        else if matchGenOpen "core::result::Result<" type_name then
          addrPref ++ format_result p fv value opts depth
        else if matchGenOpen "std::collections::hash::map::HashMap<" type_name then
          addrPref ++ format_hashmap value
        else if matchGenOpen "hashbrown::map::HashMap<" type_name then
          addrPref ++ format_hashmap value
        else if matchGenDollar "alloc::sync::Arc<" type_name then
          addrPref ++ format_arc p fv value opts
        else if matchGenDollar "alloc::rc::Rc<" type_name then
          addrPref ++ format_rc p fv value opts
        else if matchGenDollar "alloc::boxed::Box<" type_name then
          addrPref ++ format_box p fv value opts
        else addrPref ++ format_default p fv value opts depth

end Fpy.Providers

namespace Fpy.SpecModel

open Fpy Fpy.PathResolver

/-- The tokenization grammar exactly as the specification states it
(spec 4.1): an identifier starts the path; then `.` + digits is a
tuple-field segment named `__` + digits, `.` + `*` is a deref segment,
`.` + identifier is a field segment, `[` digits `]` is an index
segment; anything else is a syntax error, reported as the offending
remainder (returned here as the error value).  This definition
follows the spec's words, not the code, and is the comparison point
for the tokenizer claims. -/
def specTokens : Nat → List Char → Except (List Char) (List PathSegment)
  | 0, _ => .error []
  | fuel + 1, cs =>
    match cs with
    | [] => .ok []
    | c :: rest =>
      if c = '.' then
        let ds := rest.takeWhile isDigitChar
        if ¬ ds.isEmpty then
          (specTokens fuel (rest.drop ds.length)).map
            (fun l => PathSegment.ident ("__" ++ String.mk ds) :: l)
        else if rest.head? = some '*' then
          (specTokens fuel (rest.drop 1)).map (fun l => PathSegment.deref :: l)
        else
          match matchIdent rest with
          | some nm =>
            (specTokens fuel (rest.drop nm.length)).map
              (fun l => PathSegment.ident (String.mk nm) :: l)
          | none => .error (c :: rest)
      else if c = '[' then
        let ds := rest.takeWhile isDigitChar
        if ds.isEmpty then .error (c :: rest)
        else if (rest.drop ds.length).head? = some ']' then
          (specTokens fuel (rest.drop (ds.length + 1))).map
            (fun l => PathSegment.index (digitsToNat ds) :: l)
        else .error (c :: rest)
      else .error (c :: rest)

/-- The whole grammar of spec 4.1: a leading identifier, then
`specTokens`; a missing leading identifier is a syntax error whose
offending remainder is the entire input. -/
def specTokenize (s : String) : Except (List Char) (List PathSegment) :=
  match matchIdent s.data with
  | some nm =>
    (specTokens (s.length + 1) (s.data.drop nm.length)).map
      (fun l => PathSegment.ident (String.mk nm) :: l)
  | none => .error s.data

end Fpy.SpecModel

namespace Fpy.Serializer

/-- The invariant the cycle guard maintains: every visited-set entry is
the non-zero address of a value whose type name passed the pointer
test. -/
def VisGood (e : Nat × String) : Prop :=
  isPtrTypeName e.2 = true ∧ e.1 ≠ 0

/-- A serialization callback that only ever adds well-formed
(cycle-guard) entries to the visited set. -/
def VisMono (vj : RVal → Visited → Json × Visited) : Prop :=
  ∀ v vis e, e ∈ (vj v vis).2 → e ∈ vis ∨ VisGood e

end Fpy.Serializer

namespace Fpy.Fixtures

open Fpy Fpy.Serializer Fpy.Providers

/-- A debuggee process with no readable memory: used where a theorem
needs some concrete process. -/
def trivialProcess : Process :=
  { heapAt := fun _ => none
    valueAt := fun _ _ => RVal.invalid
    readMemory := fun _ _ => none
    utf8Decode := fun _ => none
    utf8Replace := fun _ => ""
    strRepr := fun _ => "" }

/-- The `i32` element type. -/
def tI32 : RType := RType.mk true "i32" 4 []

/-- A `Vec<i32>` type with its template argument. -/
def tVec : RType := RType.mk true "alloc::vec::Vec<i32>" 24 [tI32]

/-- An unsigned scalar child. -/
def mkLeaf (nm : String) (u : Nat) : RVal :=
  RVal.mk true (RType.mk true "usize" 8 []) (some nm) 0 .heap
    (some (toString u)) none (some u) none [] []

/-- A `RawVec` buffer whose Rust-1.70 layout chain
`inner.ptr.pointer.pointer` carries the data pointer. -/
def vecBuf (ptrAddr : Nat) : RVal :=
  RVal.mk true (RType.mk true "alloc::raw_vec::RawVec<i32>" 16 []) (some "buf")
    0 .heap none none none none
    [RVal.mk true (RType.mk true "alloc::raw_vec::RawVecInner" 16 []) (some "inner")
      0 .heap none none none none
      [RVal.mk true (RType.mk true "core::ptr::unique::Unique<u8>" 8 []) (some "ptr")
        0 .heap none none none none
        [RVal.mk true (RType.mk true "core::ptr::non_null::NonNull<u8>" 8 [])
          (some "pointer") 0 .heap none none none none
          [RVal.mk true (RType.mk true "*const u8" 8 []) (some "pointer")
            0 .heap none none (some ptrAddr) none [] []] []] [],
       mkLeaf "cap" 16] []] []

/-- A concrete `Vec<i32>` value of declared length `n` whose buffer
sits at address 4096. -/
def vecVal (n : Nat) : RVal :=
  RVal.mk true tVec (some "items") 500 .stack none none none none
    [mkLeaf "len" n, vecBuf 4096] []

/-- A process that materialises `i32` elements from the fixture
buffer: the element at byte address `4096 + 4 k` reads `k`. -/
def pVec : Process :=
  { heapAt := fun _ => none
    valueAt := fun a t =>
      if t.name = "i32" then
        RVal.mk true tI32 none a.toNat .heap
          (some (toString ((a - 4096) / 4))) none (some ((a - 4096) / 4).toNat)
          none [] []
      else RVal.invalid
    readMemory := fun _ _ => none
    utf8Decode := fun _ => none
    utf8Replace := fun _ => ""
    strRepr := fun _ => "" }

/-- A `$discr$` child carrying a discriminant. -/
def mkDiscr (u : Nat) : RVal :=
  RVal.mk true (RType.mk true "u64" 8 []) (some "$discr$") 0 .heap none none
    (some u) none [] []

/-- A `String` payload leaf rendered through its host summary. -/
def strLeaf (s : String) : RVal :=
  RVal.mk true (RType.mk true "alloc::string::String" 24 []) (some "__0") 0
    .heap none (some ("\"" ++ s ++ "\"")) none none [] []

/-- A `value` wrapper around a payload, as LLDB's variant table shows. -/
def wrapVal (inner : RVal) : RVal :=
  RVal.mk true (RType.mk true "value" 24 []) (some "value") 0 .heap none none
    none none [inner] []

/-- A niche-optimized `Result<String, String>` exposed through the
`$variants$` table with discriminant `d`. -/
def nicheResult (d : Nat) : RVal :=
  RVal.mk true
    (RType.mk true
      "core::result::Result<alloc::string::String, alloc::string::String>"
      24 []) (some "r") 600 .stack none none none none
    [RVal.mk true (RType.mk true "variants" 24 []) (some "$variants$") 0 .heap
      none none none none
      [RVal.mk true (RType.mk true "v0" 24 []) (some "$variant$0") 0 .heap
        none none none none [mkDiscr d, wrapVal (strLeaf "okval")] [],
       RVal.mk true (RType.mk true "verr" 24 []) (some "$variant$") 0 .heap
        none none none none [wrapVal (strLeaf "errval")] []] []] []

/-- A stack-resident `Rc<i32>` local with a non-zero (stack) load
address and no navigable children. -/
def rcStackLocal : RVal :=
  RVal.mk true (RType.mk true "alloc::rc::Rc<i32>" 8 []) (some "r") 4096
    .stack none none none none [] []

/-- The `ptr.pointer` chain of an `Rc`, carrying the pointee address. -/
def rcPtrCell (deref : Nat) : RVal :=
  RVal.mk true (RType.mk true "core::ptr::unique::Unique<u8>" 8 []) (some "ptr")
    0 .heap none none none none
    [RVal.mk true (RType.mk true "core::ptr::non_null::NonNull<u8>" 8 [])
      (some "pointer") 0 .heap none none none (some deref) [] []] []

/-- An `Rc<demo::Node>` reference cell at address `a` pointing at heap
address `deref`. -/
def rcRef (nm : String) (a deref : Nat) : RVal :=
  RVal.mk true (RType.mk true "alloc::rc::Rc<demo::Node>" 8 []) (some nm) a
    .heap none none none none [rcPtrCell deref] []

/-- A `demo::Node` struct whose single field `next` is an `Rc` cell at
address `fieldAddr` pointing at heap address `deref`. -/
def cycNode (a fieldAddr deref : Nat) : RVal :=
  RVal.mk true (RType.mk true "demo::Node" 8 []) (some "value") a .heap none
    none none none [rcRef "next" fieldAddr deref] []

/-- The heap cell behind an `Rc`: reference counts plus the payload. -/
def rcBoxOf (node : RVal) : RVal :=
  RVal.mk true (RType.mk true "alloc::rc::RcBox<demo::Node>" 24 []) none 0
    .heap none none none none [mkLeaf "strong" 1, mkLeaf "weak" 1, node] []

/-- A debuggee holding two mutually referencing nodes: the box at 1000
holds node A whose `next` points at 2000, and the box at 2000 holds
node B whose `next` points back at 1000. -/
def pCycle : Process :=
  { heapAt := fun a =>
      if a = 1000 then some (rcBoxOf (cycNode 216 1008 2000))
      else if a = 2000 then some (rcBoxOf (cycNode 116 2008 1000))
      else none
    valueAt := fun _ _ => RVal.invalid
    readMemory := fun _ _ => none
    utf8Decode := fun _ => none
    utf8Replace := fun _ => ""
    strRepr := fun _ => "" }

/-- The root `Rc<demo::Node>` local entering the cycle. -/
def cycA : RVal := rcRef "a" 100 1000

/-- The catalogue of type-name forms the spec's scenarios and the
repository's normalization tests exercise. -/
def normalizeCatalog : List String :=
  ["i32", "String", "bool", "char",
   "int", "signed int", "long", "long long", "short", "signed char",
   "unsigned int", "unsigned long", "unsigned short", "unsigned char",
   "float", "double", "_Bool",
   "alloc::string::String", "alloc::vec::Vec<i32>",
   "alloc::vec::Vec<i32, alloc::alloc::Global>",
   "core::option::Option<i32>",
   "core::result::Result<i32, alloc::string::String>",
   "alloc::boxed::Box<i32>",
   "alloc::sync::Arc<i32, alloc::alloc::Global>", "alloc::sync::Arc<i32>",
   "alloc::rc::Rc<i32, alloc::alloc::Global>", "alloc::rc::Rc<i32>",
   "&str",
   "std::collections::hash::map::HashMap<alloc::string::String, i32, std::hash::random::RandomState>",
   "Vec<i32, alloc::alloc::Global>",
   "HashMap<String, i32, std::hash::random::RandomState>",
   "rust_sample::User", "my_crate::models::Config",
   "alloc::vec::Vec<alloc::vec::Vec<i32, alloc::alloc::Global>, alloc::alloc::Global>",
   "alloc::vec::Vec<alloc::string::String>",
   "core::option::Option<alloc::string::String>",
   "int[5]", "[i32; 5]"]

end Fpy.Fixtures

/-!
## Theorems

Properties of the embedded functions, preceded by shared helper
lemmas.
-/

namespace Fpy

open Fpy.Serializer Fpy.Providers Fpy.PathResolver Fpy.SpecModel Fpy.Fixtures

/-- The length of a Python integer range. -/
theorem pyRange_length (a b : Int) : (pyRange a b).length = (b - a).toNat := by
  unfold pyRange
  rw [List.length_map, List.length_range]

/-- Appending the empty string is the identity. -/
theorem strAppend_empty (s : String) : s ++ "" = s := by
  cases s with
  | mk data =>
    show String.mk (data ++ []) = String.mk data
    simp

/-- C9: `normalize_type_name` strips the default allocator parameter
from `Vec<i32, alloc::alloc::Global>` and the default hasher parameter
from `HashMap<String, i32, std::hash::random::RandomState>`, yielding
the source-level spellings `Vec<i32>` and `HashMap<String, i32>`. -/
theorem C9_normalize_strips_allocator_and_hasher :
    Serializer.normalize_type_name "Vec<i32, alloc::alloc::Global>" = "Vec<i32>" ∧
    Serializer.normalize_type_name
      "HashMap<String, i32, std::hash::random::RandomState>" =
      "HashMap<String, i32>" :=
  ⟨by decide, by decide⟩

/-- C5 counterexample: `normalize_type_name` is not idempotent on
every input string.  On `"foo::int"` the first pass extracts the last
module-path component `"int"`, and the second pass rewrites that C
scalar alias to `"i32"`. -/
theorem C5_counterexample_not_idempotent :
    Serializer.normalize_type_name (Serializer.normalize_type_name "foo::int") ≠
      Serializer.normalize_type_name "foo::int" := by
  decide

/-- C5 (amended): `normalize_type_name` is idempotent on the canonical
compiler type-name forms that the specification's scenarios and the
repository's normalization tests exercise (the catalogue
`normalizeCatalog`: scalar aliases, the standard-library families with
and without allocator/hasher parameters, user crate paths and C
arrays).  Unrestricted idempotence fails (see the counterexample)
because module-path extraction can expose a C scalar alias and
allocator stripping can expose a further strippable suffix. -/
theorem C5_amended_idempotent_on_catalog :
    (normalizeCatalog.all (fun s =>
      Serializer.normalize_type_name (Serializer.normalize_type_name s) ==
        Serializer.normalize_type_name s)) = true := by
  decide

end Fpy
namespace Fpy
open Fpy.Serializer Fpy.Providers Fpy.PathResolver Fpy.SpecModel Fpy.Fixtures

/-- C2: for a two-variant result decoded through the variant table
under the niche optimization, `_format_result` classifies by comparing
the discriminant with the fixed threshold `2 ^ 62` (`NICHE_THRESHOLD`,
i.e. `1 <<< 62`): at or above it the value renders as the first (Ok)
variant, below it as the second (Err) variant. -/
theorem C2_result_niche_threshold (p : Process)
    (fv : RVal → Bool → Nat → Option FormatOptions → String)
    (value : RVal) (opts : FormatOptions) (depth : Nat)
    (hOk : pyEndsWith (typeName value) "::Ok" = false)
    (hErr : pyEndsWith (typeName value) "::Err" = false)
    (hv : (getChildMemberWithName value "$variants$").valid = true)
    (hv0 : (getChildMemberWithName (getChildMemberWithName value "$variants$")
      "$variant$0").valid = true)
    (hd : (getChildMemberWithName (getChildMemberWithName
      (getChildMemberWithName value "$variants$") "$variant$0")
      "$discr$").valid = true) :
    (2 ^ 62 ≤ getValueAsUnsigned (getChildMemberWithName (getChildMemberWithName
        (getChildMemberWithName value "$variants$") "$variant$0") "$discr$") 0 →
      (∃ s, format_result p fv value opts depth = "Ok(" ++ s ++ ")") ∨
        format_result p fv value opts depth = "Ok(?)") ∧
    (getValueAsUnsigned (getChildMemberWithName (getChildMemberWithName
        (getChildMemberWithName value "$variants$") "$variant$0") "$discr$") 0 < 2 ^ 62 →
      (∃ s, format_result p fv value opts depth = "Err(" ++ s ++ ")") ∨
        format_result p fv value opts depth = "Err(?)") := by
  unfold format_result
  simp only [hOk, hErr, hv, hv0, hd, Bool.false_eq_true, if_false, if_true,
    Bool.true_eq_false, ite_false, ite_true, NICHE_THRESHOLD, Nat.shiftLeft_eq,
    one_mul]
  constructor
  · intro hge
    rw [if_pos hge]
    by_cases hw : (getChildMemberWithName (getChildMemberWithName
        (getChildMemberWithName value "$variants$") "$variant$0") "value").valid = true <;>
    by_cases hi : (getChildMemberWithName (getChildMemberWithName
        (getChildMemberWithName (getChildMemberWithName value "$variants$")
        "$variant$0") "value") "__0").valid = true <;>
    simp [hw, hi] <;>
    first
      | exact Or.inl ⟨_, rfl⟩
      | exact Or.inr rfl
      | trivial
  · intro hlt
    rw [if_neg (by omega)]
    by_cases heV : (getChildMemberWithName (getChildMemberWithName value "$variants$")
        "$variant$").valid = true <;>
    by_cases hwE : (getChildMemberWithName (getChildMemberWithName
        (getChildMemberWithName value "$variants$") "$variant$") "value").valid = true <;>
    by_cases hiE : (getChildMemberWithName (getChildMemberWithName
        (getChildMemberWithName (getChildMemberWithName value "$variants$")
        "$variant$") "value") "__0").valid = true <;>
    by_cases h1V : (getChildMemberWithName (getChildMemberWithName value "$variants$")
        "$variant$1").valid = true <;>
    by_cases hw1 : (getChildMemberWithName (getChildMemberWithName
        (getChildMemberWithName value "$variants$") "$variant$1") "value").valid = true <;>
    by_cases hi1 : (getChildMemberWithName (getChildMemberWithName
        (getChildMemberWithName (getChildMemberWithName value "$variants$")
        "$variant$1") "value") "__0").valid = true <;>
    simp [heV, hwE, hiE, h1V, hw1, hi1] <;>
    first
      | exact Or.inl ⟨_, rfl⟩
      | exact Or.inr rfl
      | trivial
end Fpy
namespace Fpy
open Fpy.Serializer Fpy.Providers Fpy.PathResolver Fpy.Fixtures

/-- C2 witness: the niche fixture at discriminants `2 ^ 62` and
`2 ^ 62 - 1`. -/
theorem C2_result_niche_threshold_witness :
    ((∃ s, format_result pVec (format_value pVec 40) (nicheResult (2 ^ 62)) {} 0 =
        "Ok(" ++ s ++ ")") ∨
      format_result pVec (format_value pVec 40) (nicheResult (2 ^ 62)) {} 0 = "Ok(?)") ∧
    ((∃ s, format_result pVec (format_value pVec 40) (nicheResult (2 ^ 62 - 1)) {} 0 =
        "Err(" ++ s ++ ")") ∨
      format_result pVec (format_value pVec 40) (nicheResult (2 ^ 62 - 1)) {} 0 = "Err(?)") :=
  ⟨(C2_result_niche_threshold pVec (format_value pVec 40) (nicheResult (2 ^ 62)) {} 0
      rfl rfl rfl rfl rfl).1 (by decide),
   (C2_result_niche_threshold pVec (format_value pVec 40) (nicheResult (2 ^ 62 - 1)) {} 0
      rfl rfl rfl rfl rfl).2 (by decide)⟩
end Fpy
namespace Fpy
open Fpy.Serializer Fpy.Providers Fpy.Fixtures

/-- C4: a vector whose `len` field reads 0 formats as `[]` (with only
a textual `(len=0, cap=...)` suffix when expanded) and serializes to
the empty JSON array with the visited set unchanged; the result is the
same for every debuggee process, so no raw memory read is issued. -/
theorem C4_empty_vec_no_memory_read (p q : Process)
    (fv : RVal → Bool → Nat → Option FormatOptions → String)
    (vj : RVal → Visited → Json × Visited)
    (value : RVal) (opts : FormatOptions) (depth : Nat) (visited : Visited)
    (hlen : (getChildMemberWithName value "len").valid = true)
    (hz : getValueAsUnsigned (getChildMemberWithName value "len") 0 = 0) :
    (opts.expand = false → format_vec p fv value opts depth = "[]") ∧
    (∃ suffix, format_vec p fv value opts depth = "[]" ++ suffix) ∧
    format_vec p fv value opts depth = format_vec q fv value opts depth ∧
    serialize_vec p vj value visited = (Json.arr [], visited) := by
  unfold format_vec serialize_vec
  simp only [hlen, hz, not_true, Bool.not_eq_true, ite_true, ite_false, if_true,
    if_false, Bool.true_eq_false, reduceIte]
  refine ⟨?_, ?_, ?_, ?_⟩
  · intro he; simp [he]
  · by_cases he : opts.expand = true
    · refine ⟨"  (len=0, cap=" ++ toString (if (getChildMemberWithName value "buf").valid = true then if (getChildMemberWithName (getChildMemberWithName value "buf") "cap").valid = true then getValueAsUnsigned (getChildMemberWithName (getChildMemberWithName value "buf") "cap") 0 else if (getChildMemberWithName (getChildMemberWithName value "buf") "inner").valid = true then if (getChildMemberWithName (getChildMemberWithName (getChildMemberWithName value "buf") "inner") "cap").valid = true then if (getChildMemberWithName (getChildMemberWithName (getChildMemberWithName (getChildMemberWithName value "buf") "inner") "cap") "__0").valid = true then getValueAsUnsigned (getChildMemberWithName (getChildMemberWithName (getChildMemberWithName (getChildMemberWithName value "buf") "inner") "cap") "__0") 0 else getValueAsUnsigned (getChildMemberWithName (getChildMemberWithName (getChildMemberWithName value "buf") "inner") "cap") 0 else 0 else 0 else 0) ++ ")", ?_⟩
      simp only [he, ite_true, if_true]
      rw [← String.append_assoc, ← String.append_assoc,
        show ("[]" : String) ++ "  (len=0, cap=" = "[]  (len=0, cap=" from rfl]
    · exact ⟨"", by simp [he]⟩
  · trivial
  · trivial

/-- C4 witness: the length-0 vector fixture under a process with no
readable memory. -/
theorem C4_empty_vec_no_memory_read_witness :
    (FormatOptions.expand {} = false →
      format_vec trivialProcess (format_value pVec 40) (vecVal 0) {} 0 = "[]") ∧
    (∃ suffix, format_vec trivialProcess (format_value pVec 40) (vecVal 0) {} 0 =
      "[]" ++ suffix) ∧
    format_vec trivialProcess (format_value pVec 40) (vecVal 0) {} 0 =
      format_vec pVec (format_value pVec 40) (vecVal 0) {} 0 ∧
    serialize_vec trivialProcess
      (fun v vis => value_to_json trivialProcess v vis 0) (vecVal 0) [] =
      (Json.arr [], []) :=
  C4_empty_vec_no_memory_read trivialProcess pVec (format_value pVec 40)
    (fun v vis => value_to_json trivialProcess v vis 0) (vecVal 0) {} 0 []
    rfl rfl
end Fpy
namespace Fpy
open Fpy.PathResolver Fpy.Fixtures

/-- C6: `_resolve_vec_index` on an index at or beyond the vector's
length fails with an error naming both the index and the length as the
bound, while an in-range index resolves to the element materialised at
base pointer plus index times element size. -/
theorem C6_vec_index_bounds_and_error (p : Process) (value : RVal) (index : Nat) (ptr : RVal)
    (hlen : (getChildMemberWithName value "len").valid = true)
    (het : (getTemplateArgumentType value.type 0).valid = true)
    (hbuf : (getChildMemberWithName value "buf").valid = true)
    (hfp : find_pointer_in_buf (getChildMemberWithName value "buf") = some ptr)
    (hpv : ptr.valid = true)
    (hpa : getValueAsUnsigned ptr 0 ≠ 0)
    (hev : (createValueFromAddress p ((getValueAsUnsigned ptr 0 : Int) +
        (index : Int) * ((getTemplateArgumentType value.type 0).byteSize : Int))
      (getTemplateArgumentType value.type 0)).valid = true) :
    (getValueAsUnsigned (getChildMemberWithName value "len") 0 ≤ index →
      resolve_vec_index p value index =
        .error ("Index [" ++ toString index ++ "] out of bounds (len=" ++
          toString (getValueAsUnsigned (getChildMemberWithName value "len") 0) ++ ")")) ∧
    (index < getValueAsUnsigned (getChildMemberWithName value "len") 0 →
      resolve_vec_index p value index =
        .ok (createValueFromAddress p ((getValueAsUnsigned ptr 0 : Int) +
            (index : Int) * ((getTemplateArgumentType value.type 0).byteSize : Int))
          (getTemplateArgumentType value.type 0))) := by
  unfold resolve_vec_index
  simp only [hlen, het, hbuf, hfp, hpv, hpa, not_true, Bool.not_eq_true,
    ite_true, ite_false, if_true, if_false, reduceIte]
  constructor
  · intro h
    rw [if_pos h]
  · intro h
    rw [if_neg (by omega)]
    simp only [het, hbuf, hfp, hpv, hpa, hev, not_true, Bool.not_eq_true,
      ite_true, ite_false, if_true, if_false, reduceIte, not_false_iff,
      Bool.true_eq_false]

/-- C6 witness: the length-2 vector fixture indexed at 5 (error
naming bound 2) and at 0 (element at the base pointer). -/
theorem C6_vec_index_bounds_and_error_witness :
    resolve_vec_index pVec (vecVal 2) 5 =
      .error "Index [5] out of bounds (len=2)" ∧
    resolve_vec_index pVec (vecVal 2) 0 =
      .ok (createValueFromAddress pVec 4096 tI32) :=
  ⟨(C6_vec_index_bounds_and_error pVec (vecVal 2) 5
      (RVal.mk true (RType.mk true "*const u8" 8 []) (some "pointer") 0 .heap
        none none (some 4096) none [] [])
      rfl rfl rfl rfl rfl (by decide) rfl).1 (by decide),
   (C6_vec_index_bounds_and_error pVec (vecVal 2) 0
      (RVal.mk true (RType.mk true "*const u8" 8 []) (some "pointer") 0 .heap
        none none (some 4096) none [] [])
      rfl rfl rfl rfl rfl (by decide) rfl).2 (by decide)⟩
end Fpy
namespace Fpy
open Fpy.Providers Fpy.Fixtures

/-- C3: for a vector of declared length `N > truncate_at`, the
formatted display is exactly `truncate_at` element entries plus one
elision marker encoding `N - truncate_at`: `truncate_at -
show_truncate_end` leading entries, the marker, then
`show_truncate_end` tail entries. -/
theorem C3_vec_truncation_shape (p : Process)
    (fv : RVal → Bool → Nat → Option FormatOptions → String)
    (value : RVal) (opts : FormatOptions) (depth : Nat) (ptr : RVal)
    (hlen : (getChildMemberWithName value "len").valid = true)
    (hN : opts.truncate_at < getValueAsUnsigned (getChildMemberWithName value "len") 0)
    (hse : opts.show_truncate_end ≤ opts.truncate_at)
    (het : (getTemplateArgumentType value.type 0).valid = true)
    (hfp : find_pointer_in_buf (getChildMemberWithName value "buf") = some ptr)
    (hpv : ptr.valid = true)
    (hpa : getValueAsUnsigned ptr 0 ≠ 0) :
    ∃ pre post suffix,
      format_vec p fv value opts depth =
        "[" ++ strIntercalate ", "
          (pre ++ ("... (" ++
            toString (getValueAsUnsigned (getChildMemberWithName value "len") 0 -
              opts.truncate_at) ++ " more)") :: post) ++ "]" ++ suffix ∧
      pre.length = opts.truncate_at - opts.show_truncate_end ∧
      post.length = opts.show_truncate_end := by
  unfold format_vec
  simp only [hlen, het, hfp, hpv, not_true, Bool.not_eq_true, ite_true,
    ite_false, if_true, if_false, reduceIte, Bool.true_eq_false]
  rw [if_neg (by omega)]
  rw [if_neg hpa]
  by_cases he : opts.expand = true
  · simp only [he, ite_true, if_true]
    rw [if_neg (by omega)]
    refine ⟨((pyRange 0 ((opts.truncate_at : Int) - (opts.show_truncate_end : Int))).map (vec_get_element p fv (getValueAsUnsigned ptr 0) (getTemplateArgumentType value.type 0) depth)), ((pyRange (((getValueAsUnsigned (getChildMemberWithName value "len") 0) : Int) - (opts.show_truncate_end : Int)) ((getValueAsUnsigned (getChildMemberWithName value "len") 0) : Int)).map (vec_get_element p fv (getValueAsUnsigned ptr 0) (getTemplateArgumentType value.type 0) depth)), "  (len=" ++
        toString (getValueAsUnsigned (getChildMemberWithName value "len") 0) ++
        ", cap=" ++ toString (if (getChildMemberWithName value "buf").valid = true then if (getChildMemberWithName (getChildMemberWithName value "buf") "cap").valid = true then getValueAsUnsigned (getChildMemberWithName (getChildMemberWithName value "buf") "cap") 0 else if (getChildMemberWithName (getChildMemberWithName value "buf") "inner").valid = true then if (getChildMemberWithName (getChildMemberWithName (getChildMemberWithName value "buf") "inner") "cap").valid = true then if (getChildMemberWithName (getChildMemberWithName (getChildMemberWithName (getChildMemberWithName value "buf") "inner") "cap") "__0").valid = true then getValueAsUnsigned (getChildMemberWithName (getChildMemberWithName (getChildMemberWithName (getChildMemberWithName value "buf") "inner") "cap") "__0") 0 else getValueAsUnsigned (getChildMemberWithName (getChildMemberWithName (getChildMemberWithName value "buf") "inner") "cap") 0 else 0 else 0 else 0) ++ ")", ?_, ?_, ?_⟩
    · simp only [String.append_assoc, List.singleton_append, List.cons_append,
        List.append_assoc, List.nil_append]
    · rw [List.length_map, pyRange_length]; omega
    · rw [List.length_map, pyRange_length]; omega
  · simp only [he, ite_false, Bool.false_eq_true, if_false]
    rw [if_neg (by omega)]
    refine ⟨((pyRange 0 ((opts.truncate_at : Int) - (opts.show_truncate_end : Int))).map (vec_get_element p fv (getValueAsUnsigned ptr 0) (getTemplateArgumentType value.type 0) depth)), ((pyRange (((getValueAsUnsigned (getChildMemberWithName value "len") 0) : Int) - (opts.show_truncate_end : Int)) ((getValueAsUnsigned (getChildMemberWithName value "len") 0) : Int)).map (vec_get_element p fv (getValueAsUnsigned ptr 0) (getTemplateArgumentType value.type 0) depth)), "", ?_, ?_, ?_⟩
    · rw [strAppend_empty]
      simp only [List.singleton_append, List.append_assoc, List.nil_append]
    · rw [List.length_map, pyRange_length]; omega
    · rw [List.length_map, pyRange_length]; omega
end Fpy
namespace Fpy
open Fpy.Providers Fpy.Fixtures

/-- C3 witness: the length-12 vector fixture under the default
options (`truncate_at = 10`, `show_truncate_end = 3`) shows 7 + 3
entries around a `... (2 more)` marker. -/
theorem C3_vec_truncation_shape_witness :
    ∃ pre post suffix,
      format_vec pVec (format_value pVec 40) (vecVal 12) {} 0 =
        "[" ++ strIntercalate ", " (pre ++ "... (2 more)" :: post) ++ "]" ++ suffix ∧
      pre.length = 7 ∧
      post.length = 3 :=
  C3_vec_truncation_shape pVec (format_value pVec 40) (vecVal 12) {} 0
    (RVal.mk true (RType.mk true "*const u8" 8 []) (some "pointer") 0 .heap
      none none (some 4096) none [] [])
    rfl (by decide) (by decide) rfl rfl rfl (by decide)
end Fpy
namespace Fpy
open Fpy.Serializer Fpy.Fixtures

/-- C1: serialization terminates on mutually referencing
shared-pointer graphs, and visiting a pointer-typed value whose
address is already in the visited set yields the cycle marker object
instead of recursing; the concrete two-node `Rc` cycle fixture
serializes to a finite nesting ending in `__cycle__`. -/
theorem C1_cycle_guard_second_visit (p : Process) (value : RVal) (visited : Visited) (depth : Nat)
    (hv : value.valid = true) (hd : depth ≤ 20)
    (hpt : isPtrTypeName (typeName value) = true)
    (ha : getLoadAddress value ≠ 0)
    (hvc : visContains visited (getLoadAddress value) = true) :
    value_to_json p value visited depth =
      (Json.obj [("__cycle__", Json.str ("0x" ++ hexStr (getLoadAddress value)))],
        visited) ∧
    (value_to_json pCycle cycA [] 0).1 =
      Json.obj [("__ferrumpy_kind__", Json.str "rc"), ("__inner__",
        Json.obj [("next",
          Json.obj [("__ferrumpy_kind__", Json.str "rc"), ("__inner__",
            Json.obj [("next",
              Json.obj [("__ferrumpy_kind__", Json.str "rc"), ("__inner__",
                Json.obj [("next",
                  Json.obj [("__cycle__", Json.str "0x3f0")])])])])])])] := by
  constructor
  · unfold value_to_json
    obtain ⟨k, hk⟩ : ∃ k, 21 - depth = k + 1 := ⟨20 - depth, by omega⟩
    rw [hk]
    simp only [value_to_jsonGas]
    rw [if_neg (by simp [hv]), if_neg (by omega)]
    simp only [hpt, hvc, ha, ne_eq, not_false_iff, decide_True, Bool.and_self,
      Bool.true_and, Bool.and_true, ite_true, if_true, decide_not,
      not_false_eq_true]
  · rfl
end Fpy
namespace Fpy
open Fpy.Serializer Fpy.Fixtures

/-- C1 witness: the revisited `next` cell of the cycle fixture. -/
theorem C1_cycle_guard_second_visit_witness :
    value_to_json pCycle (rcRef "next" 1008 2000)
        [(1008, "alloc::rc::Rc<demo::Node>")] 5 =
      (Json.obj [("__cycle__", Json.str "0x3f0")],
        [(1008, "alloc::rc::Rc<demo::Node>")]) :=
  (C1_cycle_guard_second_visit pCycle (rcRef "next" 1008 2000) [(1008, "alloc::rc::Rc<demo::Node>")]
    5 rfl (by decide) (by decide) (by decide) rfl).1
end Fpy
namespace Fpy.Serializer
open Fpy

/-- Entries of `visAdd` are old entries or the inserted pair. -/
theorem visAdd_mem (vis : Visited) (a : Nat) (t : String) (e : Nat × String)
    (he : e ∈ visAdd vis a t) : e ∈ vis ∨ e = (a, t) := by
  unfold visAdd at he
  split at he
  · exact Or.inl he
  · rcases List.mem_cons.mp he with h | h
    · exact Or.inr h
    · exact Or.inl h

/-- Folding a visited-monotone step keeps the invariant. -/
theorem foldl_vis {α β : Type} (f : β × Visited → α → β × Visited)
    (P : Nat × String → Prop)
    (hf : ∀ st x, (∀ e ∈ st.2, P e) → ∀ e ∈ (f st x).2, P e) :
    ∀ (l : List α) (st : β × Visited), (∀ e ∈ st.2, P e) →
      ∀ e ∈ (l.foldl f st).2, P e := by
  intro l
  induction l with
  | nil => intro st h e he; exact h e he
  | cons x xs ih => intro st h; exact ih _ (hf st x h)

theorem vis_serialize_vec (p : Process) (vj : RVal → Visited → Json × Visited)
    (value : RVal) (vis : Visited) (hvj : VisMono vj) :
    ∀ e ∈ (serialize_vec p vj value vis).2, e ∈ vis ∨ VisGood e := by
  intro e he
  unfold serialize_vec at he
  simp only [] at he
  repeat' split at he
  all_goals try exact Or.inl he
  all_goals
    refine foldl_vis _ (fun e => e ∈ vis ∨ VisGood e) ?_ _ _ (fun e h => Or.inl h) e he
  all_goals
    intro st x h e' he'
  all_goals
    rcases hvj _ _ _ he' with h' | h'
  all_goals first
    | exact h e' h'
    | exact Or.inr h'
end Fpy.Serializer
namespace Fpy.Serializer
open Fpy

/-- One more callback step keeps visited entries old-or-well-formed. -/
theorem vismono_step {vj : RVal → Visited → Json × Visited} (hvj : VisMono vj)
    {vis w : Visited} (v : RVal)
    (hw : ∀ e ∈ w, e ∈ vis ∨ VisGood e) :
    ∀ e ∈ (vj v w).2, e ∈ vis ∨ VisGood e := fun e he =>
  (hvj _ _ _ he).elim (fun h => hw e h) Or.inr

theorem vis_serialize_option (p : Process) (vj : RVal → Visited → Json × Visited)
    (value : RVal) (vis : Visited) (hvj : VisMono vj) :
    ∀ e ∈ (serialize_option p vj value vis).2, e ∈ vis ∨ VisGood e := by
  intro e he
  unfold serialize_option at he
  simp only [] at he
  repeat' split at he
  all_goals try exact Or.inl he
  all_goals try exact hvj _ _ _ he
  all_goals rename_i heq
  all_goals repeat' split at heq
  all_goals try cases heq
  all_goals try exact Or.inl he
  all_goals try exact hvj _ _ _ he
  all_goals rename_i heq2
  all_goals repeat' split at heq2
  all_goals try cases heq2
  all_goals try exact Or.inl he
  all_goals exact hvj _ _ _ he

theorem vis_serialize_result (p : Process) (vj : RVal → Visited → Json × Visited)
    (value : RVal) (vis : Visited) (hvj : VisMono vj) :
    ∀ e ∈ (serialize_result p vj value vis).2, e ∈ vis ∨ VisGood e := by
  intro e he
  unfold serialize_result at he
  simp only [] at he
  repeat' split at he
  all_goals try exact Or.inl he
  all_goals exact hvj _ _ _ he

theorem vis_serialize_tuple (vj : RVal → Visited → Json × Visited)
    (value : RVal) (vis : Visited) (hvj : VisMono vj) :
    ∀ e ∈ (serialize_tuple vj value vis).2, e ∈ vis ∨ VisGood e := by
  intro e he
  unfold serialize_tuple at he
  simp only [] at he
  refine foldl_vis _ (fun e => e ∈ vis ∨ VisGood e) ?_ _ _ (fun e h => Or.inl h) e he
  intro st x h e' he'
  split at he'
  · exact vismono_step hvj _ h e' he'
  · exact h e' he'

theorem vis_serialize_fixed_array (vj : RVal → Visited → Json × Visited)
    (value : RVal) (vis : Visited) (hvj : VisMono vj) :
    ∀ e ∈ (serialize_fixed_array vj value vis).2, e ∈ vis ∨ VisGood e := by
  intro e he
  unfold serialize_fixed_array at he
  simp only [] at he
  refine foldl_vis _ (fun e => e ∈ vis ∨ VisGood e) ?_ _ _ (fun e h => Or.inl h) e he
  intro st x h e' he'
  split at he'
  · exact vismono_step hvj _ h e' he'
  · exact h e' he'

theorem vis_serialize_struct (vj : RVal → Visited → Json × Visited)
    (value : RVal) (vis : Visited) (hvj : VisMono vj) :
    ∀ e ∈ (serialize_struct vj value vis).2, e ∈ vis ∨ VisGood e := by
  intro e he
  unfold serialize_struct at he
  simp only [] at he
  refine foldl_vis _ (fun e => e ∈ vis ∨ VisGood e) ?_ _ _ (fun e h => Or.inl h) e he
  intro st x h e' he'
  repeat' split at he'
  all_goals first
    | exact vismono_step hvj _ h e' he'
    | exact h e' he'

theorem vis_smart_ptr_deref (p : Process)
    (vj : RVal → Visited → Json × Visited)
    (value : RVal) (vis : Visited) (hvj : VisMono vj) :
    ∀ e ∈ (smart_ptr_deref p vj value vis).2, e ∈ vis ∨ VisGood e := by
  intro e he
  unfold smart_ptr_deref at he
  simp only [] at he
  repeat' split at he
  all_goals first
    | exact Or.inl he
    | exact vismono_step hvj _ (fun e h => Or.inl h) e he
    | exact vismono_step hvj _ (vismono_step hvj _ (fun e h => Or.inl h)) e he

theorem vis_smart_ptr_value_child (vj : RVal → Visited → Json × Visited)
    (value : RVal) (st1 : Json × Visited) (hvj : VisMono vj) :
    ∀ e ∈ (smart_ptr_value_child vj value st1).2, e ∈ st1.2 ∨ VisGood e := by
  intro e he
  unfold smart_ptr_value_child at he
  simp only [] at he
  repeat' split at he
  all_goals first
    | exact Or.inl he
    | exact vismono_step hvj _ (fun e h => Or.inl h) e he

theorem vis_smart_ptr_first_child (p : Process)
    (vj : RVal → Visited → Json × Visited)
    (value : RVal) (st2 : Json × Visited) (hvj : VisMono vj) :
    ∀ e ∈ (smart_ptr_first_child p vj value st2).2, e ∈ st2.2 ∨ VisGood e := by
  intro e he
  unfold smart_ptr_first_child at he
  simp only [] at he
  repeat' split at he
  all_goals first
    | exact Or.inl he
    | exact vismono_step hvj _ (fun e h => Or.inl h) e he

/-- Transitivity of the old-or-well-formed visited invariant. -/
theorem pvis_trans {vis A B : Visited}
    (hAB : ∀ e ∈ B, e ∈ A ∨ VisGood e)
    (hA : ∀ e ∈ A, e ∈ vis ∨ VisGood e) :
    ∀ e ∈ B, e ∈ vis ∨ VisGood e := fun e he =>
  (hAB e he).elim (hA e) Or.inr

theorem vis_serialize_smart_pointer (p : Process)
    (vj : RVal → Visited → Json × Visited)
    (value : RVal) (vis : Visited) (hvj : VisMono vj) :
    ∀ e ∈ (serialize_smart_pointer p vj value vis).2, e ∈ vis ∨ VisGood e := by
  intro e he
  unfold serialize_smart_pointer at he
  simp only [] at he
  exact pvis_trans (vis_smart_ptr_first_child p vj value _ hvj)
    (pvis_trans (vis_smart_ptr_value_child vj value _ hvj)
      (vis_smart_ptr_deref p vj value vis hvj)) e he
end Fpy.Serializer
namespace Fpy.Serializer
open Fpy

/-- The dispatch step only adds well-formed entries. -/
theorem vis_value_to_json_dispatch (p : Process)
    (vj : RVal → Visited → Json × Visited)
    (value : RVal) (vis : Visited) (hvj : VisMono vj) :
    ∀ e ∈ (value_to_json_dispatch p vj value vis).2, e ∈ vis ∨ VisGood e := by
  intro e he
  unfold value_to_json_dispatch at he
  simp only [] at he
  repeat' split at he
  all_goals first
    | exact Or.inl he
    | exact vis_serialize_vec p _ value _ hvj e he
    | exact vis_serialize_option p _ value _ hvj e he
    | exact vis_serialize_result p _ value _ hvj e he
    | exact vis_serialize_smart_pointer p _ value _ hvj e he
    | exact vis_serialize_tuple _ value _ hvj e he
    | exact vis_serialize_fixed_array _ value _ hvj e he
    | exact vis_serialize_struct _ value _ hvj e he

/-- Every entry `value_to_jsonGas` ever adds to the visited set passed
the cycle-guard insertion test: pointer-suspect type name, non-zero
address. -/
theorem vis_value_to_jsonGas (p : Process) :
    ∀ (gas : Nat) (value : RVal) (vis : Visited) (depth : Nat),
      ∀ e ∈ (value_to_jsonGas p gas value vis depth).2, e ∈ vis ∨ VisGood e := by
  intro gas
  induction gas with
  | zero =>
    intro value vis depth e he
    left
    unfold value_to_jsonGas at he
    split at he <;> exact he
  | succ gas ih =>
    intro value vis depth e he
    have hvj : VisMono (fun v w => value_to_jsonGas p gas v w (depth + 1)) :=
      fun v w e' h => ih v w (depth + 1) e' h
    unfold value_to_jsonGas at he
    simp only [] at he
    have hv2 : ∀ e' ∈ (if (isPtrTypeName (typeName value) &&
          decide (getLoadAddress value ≠ 0)) = true then
          visAdd vis (getLoadAddress value) (typeName value) else vis),
        e' ∈ vis ∨ VisGood e' := by
      intro e' he'
      split at he'
      · rcases visAdd_mem _ _ _ _ he' with h | h
        · exact Or.inl h
        · right
          rename_i hcond
          simp only [Bool.and_eq_true, decide_eq_true_eq] at hcond
          subst h
          exact ⟨hcond.1, hcond.2⟩
      · exact Or.inl he'
    split at he
    · exact Or.inl he
    · split at he
      · exact Or.inl he
      · split at he
        · exact Or.inl he
        · exact pvis_trans (vis_value_to_json_dispatch p _ value _ hvj) hv2 e he
end Fpy.Serializer
namespace Fpy
open Fpy.Serializer Fpy.Fixtures

/-- C8 counterexample: a stack-resident `Rc<i32>` local with a
non-zero address is inserted into the visited set by `value_to_json`,
so the set does not only track heap-resident values. -/
theorem C8_counterexample_stack_rc_tracked :
    (value_to_json trivialProcess rcStackLocal [] 0).2 =
      [(4096, "alloc::rc::Rc<i32>")] ∧
    rcStackLocal.region = MemRegion.stack := by
  constructor
  · decide
  · decide

/-- C8 (amended): every entry `value_to_json` adds to the visited set
passed the cycle-guard insertion test — a pointer-suspect type name
(`Arc<`/`Rc<`/`Box<`/`*const`/`*mut`) and a non-zero load address;
residence of the value on the stack or heap is not consulted. -/
theorem C8_visited_entries_pointer_guarded (p : Process) (value : RVal) (vis : Visited)
    (depth : Nat) :
    ∀ e ∈ (value_to_json p value vis depth).2, e ∈ vis ∨ VisGood e :=
  fun e he => vis_value_to_jsonGas p (21 - depth) value vis depth e he

/-- C8 witness: the tracked entry of the stack-resident `Rc` run is
a well-formed cycle-guard entry. -/
theorem C8_visited_entries_pointer_guarded_witness :
    (4096, "alloc::rc::Rc<i32>") ∈ (value_to_json trivialProcess rcStackLocal [] 0).2 ∧
    ((4096, "alloc::rc::Rc<i32>") ∈ ([] : Visited) ∨
      VisGood (4096, "alloc::rc::Rc<i32>")) :=
  ⟨by decide,
   C8_visited_entries_pointer_guarded trivialProcess rcStackLocal [] 0
     (4096, "alloc::rc::Rc<i32>") (by decide)⟩
end Fpy
namespace Fpy.PathResolver
open Fpy

/-- Strings with different first characters differ. -/
theorem strNeHead {a b : String} (h : a.data.head? ≠ b.data.head?) : a ≠ b :=
  fun e => h (by rw [e])

/-- `tokenizeLoop` only ever appends to its accumulator. -/
theorem tokenizeLoop_ok_extends : ∀ (fuel : Nat) (cs : List Char)
    (acc l : List PathSegment),
    tokenizeLoop fuel cs acc = .ok l → ∃ t, l = acc ++ t := by
  intro fuel
  induction fuel with
  | zero => intro cs acc l h; simp [tokenizeLoop] at h
  | succ fuel ih =>
    intro cs acc l h
    cases cs with
    | nil =>
      simp only [tokenizeLoop] at h
      cases h
      exact ⟨[], by simp⟩
    | cons c rest =>
      simp only [tokenizeLoop] at h
      repeat' split at h
      all_goals try simp at h
      all_goals obtain ⟨t, ht⟩ := ih _ _ _ h
      all_goals subst ht
      all_goals exact ⟨_, List.append_assoc _ _ _⟩
end Fpy.PathResolver
namespace Fpy.PathResolver
open Fpy

/-- Strings whose first characters differ are different. -/
theorem strNeOfHeads {a b : String} {c d : Char}
    (ha : a.data.head? = some c) (hb : b.data.head? = some d)
    (h : c ≠ d) : a ≠ b :=
  strNeHead (by rw [ha, hb]; simpa using h)

theorem resolve_vec_index_err (p : Process) (v : RVal) (i : Nat) (e : String)
    (h : resolve_vec_index p v i = .error e) :
    e ≠ "Empty path" ∧ e ≠ "Path must start with a variable name" := by
  unfold resolve_vec_index at h
  simp only [] at h
  repeat' split at h
  all_goals first
    | (simp only [Except.error.injEq] at h; subst h
       exact ⟨strNeOfHeads rfl rfl (by decide), strNeOfHeads rfl rfl (by decide)⟩)
    | simp at h

theorem resolve_array_index_err (v : RVal) (i : Nat) (e : String)
    (h : resolve_array_index v i = .error e) :
    e ≠ "Empty path" ∧ e ≠ "Path must start with a variable name" := by
  unfold resolve_array_index at h
  simp only [] at h
  repeat' split at h
  all_goals first
    | (simp only [Except.error.injEq] at h; subst h
       exact ⟨strNeOfHeads rfl rfl (by decide), strNeOfHeads rfl rfl (by decide)⟩)
    | simp at h

theorem resolve_segment_err (p : Process) (v : RVal) (seg : PathSegment)
    (e : String) (h : resolve_segment p v seg = .error e) :
    e ≠ "Empty path" ∧ e ≠ "Path must start with a variable name" := by
  unfold resolve_segment at h
  cases seg with
  | ident nm =>
    simp only [] at h
    repeat' split at h
    all_goals first
      | (simp only [Except.error.injEq] at h; subst h
         exact ⟨strNeOfHeads rfl rfl (by decide), strNeOfHeads rfl rfl (by decide)⟩)
      | simp at h
  | index idx =>
    simp only [] at h
    repeat' split at h
    all_goals first
      | exact resolve_vec_index_err p v idx e h
      | exact resolve_array_index_err v idx e h
      | (simp only [Except.error.injEq] at h; subst h
         exact ⟨strNeOfHeads rfl rfl (by decide), strNeOfHeads rfl rfl (by decide)⟩)
      | simp at h
  | deref =>
    simp only [] at h
    repeat' split at h
    all_goals first
      | (simp only [Except.error.injEq] at h; subst h
         exact ⟨strNeOfHeads rfl rfl (by decide), strNeOfHeads rfl rfl (by decide)⟩)
      | simp at h

theorem resolveSegments_err (p : Process) :
    ∀ (segs : List PathSegment) (v : RVal) (e : String),
    resolveSegments p v segs = .error e →
    e ≠ "Empty path" ∧ e ≠ "Path must start with a variable name" := by
  intro segs
  induction segs with
  | nil => intro v e h; simp [resolveSegments] at h
  | cons seg rest ih =>
    intro v e h
    simp only [resolveSegments] at h
    split at h
    · exact ih _ _ h
    · rename_i e2 heq
      simp only [Except.error.injEq] at h
      subst h
      exact resolve_segment_err p v seg _ heq

theorem tokenizeLoop_err : ∀ (fuel : Nat) (cs : List Char)
    (acc : List PathSegment) (e : String),
    tokenizeLoop fuel cs acc = .error e →
    e ≠ "Empty path" ∧ e ≠ "Path must start with a variable name" := by
  intro fuel
  induction fuel with
  | zero =>
    intro cs acc e h
    simp only [tokenizeLoop, Except.error.injEq] at h
    subst h
    exact ⟨strNeOfHeads rfl rfl (by decide), strNeOfHeads rfl rfl (by decide)⟩
  | succ fuel ih =>
    intro cs acc e h
    cases cs with
    | nil => simp [tokenizeLoop] at h
    | cons c rest =>
      simp only [tokenizeLoop] at h
      repeat' split at h
      all_goals first
        | exact ih _ _ _ h
        | (simp only [Except.error.injEq] at h; subst h
           exact ⟨strNeOfHeads rfl rfl (by decide), strNeOfHeads rfl rfl (by decide)⟩)
        | simp at h

theorem tokenize_path_err (s e : String) (h : tokenize_path s = .error e) :
    e ≠ "Empty path" ∧ e ≠ "Path must start with a variable name" := by
  unfold tokenize_path at h
  simp only [] at h
  split at h
  · simp only [Except.error.injEq] at h
    subst h
    exact ⟨strNeOfHeads rfl rfl (by decide), strNeOfHeads rfl rfl (by decide)⟩
  · exact tokenizeLoop_err _ _ _ _ h
end Fpy.PathResolver
namespace Fpy
open Fpy.PathResolver

/-- C10: `tokenize_path` either fails or returns a list headed by an
identifier segment, so the guards of `resolve_path` for an empty
segment list and for a non-identifier first segment are unreachable:
no input makes it return `Empty path` or `Path must start with a
variable name`. -/
theorem C10_first_segment_ident_guards_unreachable :
    (∀ (s : String) (l : List PathSegment), tokenize_path s = .ok l →
      ∃ nm t, l = PathSegment.ident nm :: t) ∧
    (∀ (p : Process) (frame : Frame) (s : String),
      resolve_path p frame s ≠ .error "Empty path" ∧
      resolve_path p frame s ≠ .error "Path must start with a variable name") := by
  have hok : ∀ (s : String) (l : List PathSegment), tokenize_path s = .ok l →
      ∃ nm t, l = PathSegment.ident nm :: t := by
    intro s l h
    unfold tokenize_path at h
    simp only [] at h
    split at h
    · simp at h
    · obtain ⟨t, ht⟩ := tokenizeLoop_ok_extends _ _ _ _ h
      exact ⟨_, t, by simpa using ht⟩
  refine ⟨hok, ?_⟩
  intro p frame s
  constructor <;> intro hbad <;> unfold resolve_path at hbad <;>
    rcases htk : tokenize_path s with e | segs <;> rw [htk] at hbad
  · simp only [Except.error.injEq] at hbad
    exact (tokenize_path_err s e htk).1 hbad
  · obtain ⟨nm, t, rfl⟩ := hok s segs htk
    dsimp only at hbad
    split at hbad
    · exact (resolveSegments_err p t _ _ hbad).1 rfl
    · simp only [Except.error.injEq] at hbad
      exact @strNeOfHeads ("Variable \x27" ++ nm ++ "\x27 not found in current scope")
        "Empty path" 'V' 'E' rfl rfl (by decide) hbad
  · simp only [Except.error.injEq] at hbad
    exact (tokenize_path_err s e htk).2 hbad
  · obtain ⟨nm, t, rfl⟩ := hok s segs htk
    dsimp only at hbad
    split at hbad
    · exact (resolveSegments_err p t _ _ hbad).2 rfl
    · simp only [Except.error.injEq] at hbad
      exact @strNeOfHeads ("Variable \x27" ++ nm ++ "\x27 not found in current scope")
        "Path must start with a variable name" 'V' 'P' rfl rfl (by decide) hbad
end Fpy
namespace Fpy.PathResolver
theorem strEq_of_data {a b : String} (h : a.data = b.data) : a = b := by
  cases a; cases b; cases h; rfl

theorem strAppend_data (a b : String) : (a ++ b).data = a.data ++ b.data := by
  cases a; cases b; rfl
end Fpy.PathResolver

namespace Fpy.SpecModel
open Fpy Fpy.PathResolver

/-- A non-empty `takeWhile` pins the head. -/
theorem takeWhile_head {P : Char → Bool} {rest : List Char}
    (h : ¬ (rest.takeWhile P).isEmpty = true) :
    ∃ d rest', rest = d :: rest' ∧ P d = true := by
  cases rest with
  | nil => simp [List.takeWhile] at h
  | cons d rest' =>
    refine ⟨d, rest', rfl, ?_⟩
    by_contra hP
    simp only [Bool.not_eq_true] at hP
    simp [List.takeWhile, hP] at h

/-- Lockstep simulation: on identical input and fuel, the spec grammar
and the source tokenizer loop agree, the source prefixing its
accumulator on success and embedding the offending remainder in its
error message on failure. -/
theorem specTokens_tokenizeLoop : ∀ (fuel : Nat) (cs : List Char)
    (acc : List PathSegment),
    (∀ l, specTokens fuel cs = .ok l →
      tokenizeLoop fuel cs acc = .ok (acc ++ l)) ∧
    (∀ rem, specTokens fuel cs = .error rem →
      ∃ e, tokenizeLoop fuel cs acc = .error e ∧
        ∃ pre post, e = pre ++ String.mk rem ++ post) := by
  intro fuel
  induction fuel with
  | zero =>
    intro cs acc
    constructor
    · intro l h; simp [specTokens] at h
    · intro rem h
      simp only [specTokens, Except.error.injEq] at h
      subst h
      exact ⟨"<fuel exhausted>", rfl, "<fuel exhausted>", "",
        by rw [strAppend_empty, strAppend_empty]⟩
  | succ fuel ih =>
    intro cs acc
    cases cs with
    | nil =>
      constructor
      · intro l h
        simp only [specTokens, Except.ok.injEq] at h
        subst h
        simp [tokenizeLoop]
      · intro rem h; simp [specTokens] at h
    | cons c rest =>
      constructor
      · intro l h
        simp only [specTokens] at h
        simp only [tokenizeLoop]
        split at h
        · rename_i hdot
          rw [if_pos hdot]
          split at h
          · rename_i hds
            obtain ⟨d, rest', hrest, hd⟩ := takeWhile_head hds
            have hstar : ¬ rest.head? = some '*' := by
              rw [hrest]
              simp only [List.head?_cons, Option.some.injEq]
              intro hq
              rw [hq] at hd
              simp [isDigitChar] at hd
            rw [if_neg hstar, if_neg hds]
            rcases hsp : specTokens fuel (rest.drop
                (rest.takeWhile isDigitChar).length) with rem0 | l0
            · rw [hsp] at h; simp [Except.map] at h
            · rw [hsp] at h
              simp only [Except.map, Except.ok.injEq] at h
              subst h
              rw [(ih _ _).1 l0 hsp]
              simp
          · split at h
            · rename_i hds hstar
              rw [if_pos hstar]
              rcases hsp : specTokens fuel (rest.drop 1) with rem0 | l0
              · rw [hsp] at h; simp [Except.map] at h
              · rw [hsp] at h
                simp only [Except.map, Except.ok.injEq] at h
                subst h
                rw [(ih _ _).1 l0 hsp]
                simp
            · rename_i hds hstar
              rw [if_neg hstar]
              rw [not_not] at hds
              rw [if_pos hds]
              split at h
              · rename_i nm hnm
                rcases hsp : specTokens fuel (rest.drop nm.length) with rem0 | l0
                · rw [hsp] at h; simp [Except.map] at h
                · rw [hsp] at h
                  simp only [Except.map, Except.ok.injEq] at h
                  subst h
                  rw [(ih _ _).1 l0 hsp]
                  simp
              · simp at h
        · split at h
          · rename_i hdot hbr
            rw [if_neg hdot, if_pos hbr]
            split at h
            · simp at h
            · split at h
              · rename_i hds hket
                rw [if_neg (by simpa using hds), if_pos hket]
                rcases hsp : specTokens fuel (rest.drop
                    ((rest.takeWhile isDigitChar).length + 1)) with rem0 | l0
                · rw [hsp] at h; simp [Except.map] at h
                · rw [hsp] at h
                  simp only [Except.map, Except.ok.injEq] at h
                  subst h
                  rw [(ih _ _).1 l0 hsp]
                  simp
              · simp at h
          · simp at h
      · intro rem h
        simp only [specTokens] at h
        simp only [tokenizeLoop]
        split at h
        · rename_i hdot
          rw [if_pos hdot]
          split at h
          · rename_i hds
            obtain ⟨d, rest', hrest, hd⟩ := takeWhile_head hds
            have hstar : ¬ rest.head? = some '*' := by
              rw [hrest]
              simp only [List.head?_cons, Option.some.injEq]
              intro hq
              rw [hq] at hd
              simp [isDigitChar] at hd
            rw [if_neg hstar, if_neg hds]
            rcases hsp : specTokens fuel (rest.drop
                (rest.takeWhile isDigitChar).length) with rem0 | l0
            · rw [hsp] at h
              simp only [Except.map, Except.error.injEq] at h
              subst h
              exact (ih _ _).2 _ hsp
            · rw [hsp] at h; simp [Except.map] at h
          · split at h
            · rename_i hds hstar
              rw [if_pos hstar]
              rcases hsp : specTokens fuel (rest.drop 1) with rem0 | l0
              · rw [hsp] at h
                simp only [Except.map, Except.error.injEq] at h
                subst h
                exact (ih _ _).2 _ hsp
              · rw [hsp] at h; simp [Except.map] at h
            · rename_i hds hstar
              rw [if_neg hstar]
              rw [not_not] at hds
              rw [if_pos hds]
              split at h
              · rename_i nm hnm
                rcases hsp : specTokens fuel (rest.drop nm.length) with rem0 | l0
                · rw [hsp] at h
                  simp only [Except.map, Except.error.injEq] at h
                  subst h
                  exact (ih _ _).2 _ hsp
                · rw [hsp] at h; simp [Except.map] at h
              · rename_i hnm
                simp only [Except.error.injEq] at h
                subst h
                exact ⟨_, rfl, "Invalid field access at: ", "", by
                  rw [strAppend_empty]
                  apply strEq_of_data
                  subst hdot
                  simp [strAppend_data]⟩
        · split at h
          · rename_i hdot hbr
            rw [if_neg hdot, if_pos hbr]
            split at h
            · rename_i hds
              rw [if_pos (by simpa using hds)]
              simp only [Except.error.injEq] at h
              subst h
              exact ⟨_, rfl, "Invalid index access at: ", "", by
                rw [strAppend_empty]⟩
            · split at h
              · rename_i hds hket
                rw [if_neg (by simpa using hds), if_pos hket]
                rcases hsp : specTokens fuel (rest.drop
                    ((rest.takeWhile isDigitChar).length + 1)) with rem0 | l0
                · rw [hsp] at h
                  simp only [Except.map, Except.error.injEq] at h
                  subst h
                  exact (ih _ _).2 _ hsp
                · rw [hsp] at h; simp [Except.map] at h
              · rename_i hds hket
                rw [if_neg (by simpa using hds), if_neg hket]
                simp only [Except.error.injEq] at h
                subst h
                exact ⟨_, rfl, "Invalid index access at: ", "", by
                  rw [strAppend_empty]⟩
          · rename_i hdot hbr
            rw [if_neg hdot, if_neg hbr]
            simp only [Except.error.injEq] at h
            subst h
            exact ⟨_, rfl, "Unexpected character at: ", "", by
              rw [strAppend_empty]⟩
end Fpy.SpecModel
namespace Fpy.SpecModel
open Fpy Fpy.PathResolver

/-- Stripping is dropping a prefix and a suffix. -/
theorem pyStripChars_decomp (l : List Char) :
    ∃ w1 w2, l = w1 ++ pyStripChars l ++ w2 := by
  refine ⟨l.takeWhile isPySpace,
    ((l.dropWhile isPySpace).reverse.takeWhile isPySpace).reverse, ?_⟩
  have h1 : l.takeWhile isPySpace ++ l.dropWhile isPySpace = l :=
    List.takeWhile_append_dropWhile _ _
  have h2 : (l.dropWhile isPySpace).reverse.takeWhile isPySpace ++
      (l.dropWhile isPySpace).reverse.dropWhile isPySpace =
      (l.dropWhile isPySpace).reverse :=
    List.takeWhile_append_dropWhile _ _
  have h3 : l.dropWhile isPySpace =
      pyStripChars l ++
        ((l.dropWhile isPySpace).reverse.takeWhile isPySpace).reverse := by
    unfold pyStripChars
    calc l.dropWhile isPySpace
        = (l.dropWhile isPySpace).reverse.reverse := by rw [List.reverse_reverse]
      _ = ((l.dropWhile isPySpace).reverse.takeWhile isPySpace ++
            (l.dropWhile isPySpace).reverse.dropWhile isPySpace).reverse := by
            rw [h2]
      _ = _ := by rw [List.reverse_append]
  calc l = l.takeWhile isPySpace ++ l.dropWhile isPySpace := h1.symm
    _ = l.takeWhile isPySpace ++ (pyStripChars l ++
          ((l.dropWhile isPySpace).reverse.takeWhile isPySpace).reverse) := by
          rw [← h3]
    _ = _ := by rw [List.append_assoc]

/-- C7 (amended): the stated grammar and the source tokenizer agree
up to the source's leading/trailing-whitespace strip: on
grammar-accepted inputs `tokenize_path` returns exactly the grammar's
segments, and on grammar errors it raises a syntax error whose message
embeds the offending remainder. -/
theorem C7_grammar_equivalence_mod_strip : ∀ s : String,
    (∀ l, specTokenize (pyStrip s) = .ok l → tokenize_path s = .ok l) ∧
    (∀ rem, specTokenize (pyStrip s) = .error rem →
      ∃ e, tokenize_path s = .error e ∧
        ∃ pre post, e = pre ++ String.mk rem ++ post) := by
  intro s
  constructor
  · intro l h
    unfold specTokenize at h
    unfold tokenize_path
    simp only [] at h ⊢
    split at h
    · rename_i nm hmi
      rw [hmi]
      dsimp only
      rcases hsp : specTokens ((pyStrip s).length + 1)
          ((pyStrip s).data.drop nm.length) with rem0 | l0
      · rw [hsp] at h; simp [Except.map] at h
      · rw [hsp] at h
        simp only [Except.map, Except.ok.injEq] at h
        subst h
        rw [(specTokens_tokenizeLoop _ _ _).1 l0 hsp]
        simp
    · simp at h
  · intro rem h
    unfold specTokenize at h
    unfold tokenize_path
    simp only [] at h ⊢
    split at h
    · rename_i nm hmi
      rw [hmi]
      dsimp only
      rcases hsp : specTokens ((pyStrip s).length + 1)
          ((pyStrip s).data.drop nm.length) with rem0 | l0
      · rw [hsp] at h
        simp only [Except.map, Except.error.injEq] at h
        subst h
        exact (specTokens_tokenizeLoop _ _ _).2 _ hsp
      · rw [hsp] at h; simp [Except.map] at h
    · rename_i hmi
      rw [hmi]
      dsimp only
      simp only [Except.error.injEq] at h
      subst h
      obtain ⟨w1, w2, hw⟩ := pyStripChars_decomp s.data
      refine ⟨_, rfl,
        "Invalid path: expected identifier at start of \x27" ++ String.mk w1,
        String.mk w2 ++ "\x27", ?_⟩
      apply strEq_of_data
      simp only [strAppend_data]
      rw [show (pyStrip s).data = pyStripChars s.data from rfl]
      conv_lhs => rw [hw]
      simp [List.append_assoc]
end Fpy.SpecModel
namespace Fpy
open Fpy.PathResolver Fpy.SpecModel

/-- C7 counterexample: the stated grammar rejects `" x"` (no leading
identifier), but `tokenize_path` strips whitespace first and accepts
it. -/
theorem C7_counterexample_leading_whitespace :
    tokenize_path " x" = .ok [PathSegment.ident "x"] ∧
    specTokenize " x" = .error " x".data :=
  ⟨rfl, rfl⟩
end Fpy
